import Mathlib

/-!
Verification model of the PDF outline extraction engine.

The Python source is embedded shallowly: pure functions become Lean
functions over `String`/`ℚ`/`ℕ`, in-place mutation becomes construction of
updated values, and code paths that raise exceptions are modelled with
`Except`.  Strings are modelled over their character lists; the Python
string predicates (`strip`, `lower`, `split`, `isupper`, `istitle`,
`isdigit`) are reproduced for the ASCII fragment the pipeline manipulates
(Unicode NFC normalization is the identity on this fragment).  Floating
point arithmetic is modelled with exact rationals.
-/

/-- Python `str.isspace` characters (ASCII fragment): space (32), tab (9),
newline (10), carriage return (13), vertical tab (11), form feed (12);
stated on code points to ease reasoning. -/
def pyIsSpace (c : Char) : Bool :=
  c.toNat == 32 || c.toNat == 9 || c.toNat == 10 || c.toNat == 13 ||
    c.toNat == 11 || c.toNat == 12

/-- ASCII uppercase letter test (`'A'`–`'Z'`, code points 65–90). -/
def isAsciiUpper (c : Char) : Bool := 65 ≤ c.toNat && c.toNat ≤ 90

/-- ASCII lowercase letter test (`'a'`–`'z'`, code points 97–122). -/
def isAsciiLower (c : Char) : Bool := 97 ≤ c.toNat && c.toNat ≤ 122

/-- ASCII letter test (the cased characters of the modelled fragment). -/
def isAsciiLetter (c : Char) : Bool := isAsciiUpper c || isAsciiLower c

/-- ASCII digit test (`'0'`–`'9'`, code points 48–57). -/
def isAsciiDigit (c : Char) : Bool := 48 ≤ c.toNat && c.toNat ≤ 57

/-- Python `str.lower` on one ASCII character. -/
def pyLowerChar (c : Char) : Char :=
  if isAsciiUpper c then Char.ofNat (c.toNat + 32) else c

/-- Python `str.lower` (ASCII fragment). -/
def pyLower (s : String) : String := ⟨s.toList.map pyLowerChar⟩

/-- Strip characters satisfying `p` from both ends of a character list. -/
def stripList (p : Char → Bool) (l : List Char) : List Char :=
  ((l.dropWhile p).reverse.dropWhile p).reverse

/-- Python `str.strip()` with no argument: remove leading and trailing
whitespace. -/
def pyStrip (s : String) : String := ⟨stripList pyIsSpace s.toList⟩

/-- Helper for `pySplit`: accumulate the current word (reversed in `acc`). -/
def pySplitGo : List Char → List Char → List (List Char)
  | [], acc => if acc.isEmpty then [] else [acc.reverse]
  | c :: cs, acc =>
    if pyIsSpace c then
      if acc.isEmpty then pySplitGo cs [] else acc.reverse :: pySplitGo cs []
    else pySplitGo cs (c :: acc)

/-- Python `str.split()` with no argument: split on whitespace runs,
discarding empty pieces. -/
def pySplit (s : String) : List String := (pySplitGo s.toList []).map (⟨·⟩)

/-- Python `str.isupper`: at least one cased character and no lowercase
cased character (ASCII fragment: cased = letters). -/
def pyIsUpper (s : String) : Bool :=
  s.toList.any isAsciiLetter && s.toList.all (fun c => !isAsciiLower c)

/-- Helper for `pyIsTitle`: walk the characters remembering whether the
previous character was cased. -/
def pyIsTitleGo : List Char → Bool → Bool
  | [], _ => true
  | c :: cs, prevCased =>
    if isAsciiUpper c then !prevCased && pyIsTitleGo cs true
    else if isAsciiLower c then prevCased && pyIsTitleGo cs true
    else pyIsTitleGo cs false

/-- Python `str.istitle`: uppercase letters only follow uncased characters,
lowercase letters only follow cased ones, and at least one cased character
is present (ASCII fragment). -/
def pyIsTitle (s : String) : Bool :=
  s.toList.any isAsciiLetter && pyIsTitleGo s.toList false

/-- Python `str.isdigit`: nonempty and all digits (ASCII fragment). -/
def pyIsDigitStr (s : String) : Bool :=
  !s.toList.isEmpty && s.toList.all isAsciiDigit

/-- Python `str.count` for a single character. -/
def pyCountChar (s : String) (c : Char) : Nat := s.toList.count c

/-- Whether the string's final character is `c` (Python `endswith` for a
one-character suffix). -/
def pyEndsWithChar (s : String) (c : Char) : Bool :=
  match s.toList.getLast? with
  | some d => d == c
  | none => false

/-- Regex word characters (`\w`): letters, digits, underscore (ASCII). -/
def isWordChar (c : Char) : Bool := isAsciiLetter c || isAsciiDigit c || c == '_'

/-- Helper: maximal runs of word characters, as used to decide
`\b word \b` regex hits. -/
def wordRunsGo : List Char → List Char → List (List Char)
  | [], acc => if acc.isEmpty then [] else [acc.reverse]
  | c :: cs, acc =>
    if isWordChar c then wordRunsGo cs (c :: acc)
    else if acc.isEmpty then wordRunsGo cs [] else acc.reverse :: wordRunsGo cs []

/-- Maximal word-character runs of a string. -/
def wordRuns (s : String) : List String := (wordRunsGo s.toList []).map (⟨·⟩)

/-- `re.search(r'\b(w1|w2|...)\b', s)` for purely alphabetic alternatives:
some maximal word run equals one of the words. -/
def containsWordFrom (ws : List String) (s : String) : Bool :=
  (wordRuns s).any (fun r => ws.contains r)

/-- Helper for `pyContains`: does `needle` occur starting at some suffix
of `hay`? -/
def infixScan (needle : List Char) : List Char → Bool
  | [] => needle.isEmpty
  | c :: t => needle.isPrefixOf (c :: t) || infixScan needle t

/-- Python `needle in hay` substring test. -/
def pyContains (hay needle : String) : Bool :=
  infixScan needle.toList hay.toList

/-- Stable insertion used by `sortBy`: `x` is placed before the first
element it is strictly less than, hence after all earlier elements with an
equal key — the placement a stable sort gives a later-arriving element. -/
def insBy {α : Type} (lt : α → α → Bool) (x : α) : List α → List α
  | [] => [x]
  | y :: ys => if lt x y then x :: y :: ys else y :: insBy lt x ys

/-- Stable sort by the strict comparison `lt` (equivalent to Python's
stable `list.sort`): elements are inserted left to right. -/
def sortBy {α : Type} (lt : α → α → Bool) (l : List α) : List α :=
  l.foldl (fun acc x => insBy lt x acc) []

/-! ## Data model (src/src/models/data_models.py) -/

/-- `PositionInfo`: bounding box in page space (`y1` is the top). -/
structure PositionInfo where
  x0 : ℚ
  y0 : ℚ
  x1 : ℚ
  y1 : ℚ
  width : ℚ
  height : ℚ
deriving DecidableEq, Repr

/-- `FontMetadata`; `relativeSizeRank` 0 means the largest size of the
analyzed population.  (`__post_init__` lower-cases weight/style and
defaults the family — concrete inputs below are built already
normalized.) -/
structure FontMetadata where
  size : ℚ
  family : String
  weight : String
  style : String
  relativeSizeRank : Nat := 0
deriving DecidableEq, Repr

/-- `StyleInfo` (the `color` field is never read by the engine and is
omitted). -/
structure StyleInfo where
  isBold : Bool := false
  isItalic : Bool := false
  isUnderlined : Bool := false
deriving DecidableEq, Repr

/-- `TextBlock`. -/
structure TextBlock where
  text : String
  pageNumber : Nat
  fontMetadata : FontMetadata
  position : PositionInfo
  styling : StyleInfo
deriving DecidableEq, Repr

/-- `TextBlock.__post_init__` strips the text. -/
def mkTextBlock (text : String) (page : Nat) (font : FontMetadata)
    (pos : PositionInfo) (sty : StyleInfo) : TextBlock :=
  { text := pyStrip text, pageNumber := page, fontMetadata := font,
    position := pos, styling := sty }

/-- Emitted heading levels (`OutlineEntry.level ∈ {H1, H2, H3}`). -/
inductive HLevel where
  | H1
  | H2
  | H3
deriving DecidableEq, Repr

/-- A candidate's `suggested_level`: one of the emitted levels or `"Body"`
(rejected).  `determine_heading_level` only ever produces these values. -/
inductive CandLevel where
  | H1
  | H2
  | H3
  | body
deriving DecidableEq, Repr

/-- The emitted level corresponding to a non-`Body` suggested level. -/
def CandLevel.toHLevel? : CandLevel → Option HLevel
  | .H1 => some HLevel.H1
  | .H2 => some HLevel.H2
  | .H3 => some HLevel.H3
  | .body => none

/-- The `classification_factors` breakdown dictionary (the `is_bold` entry
is stored but never read downstream and is omitted). -/
structure ClassificationFactors where
  fontScore : ℚ
  positionScore : ℚ
  whitespaceScore : ℚ
  textPatternScore : ℚ
  lengthScore : ℚ
  fontSize : ℚ
  relativeSizeRank : Nat
  textLength : Nat
deriving DecidableEq, Repr

/-- `HeadingCandidate`. -/
structure HeadingCandidate where
  textBlock : TextBlock
  confidenceScore : ℚ
  classificationFactors : ClassificationFactors
  suggestedLevel : CandLevel
deriving DecidableEq, Repr

/-- `HeadingCandidate.text` property. -/
def HeadingCandidate.text (c : HeadingCandidate) : String := c.textBlock.text

/-- `HeadingCandidate.page` property. -/
def HeadingCandidate.page (c : HeadingCandidate) : Nat := c.textBlock.pageNumber

/-- `OutlineEntry` (level validity is enforced by the `HLevel` type; the
non-empty-text and non-negative-page `ValueError` paths are unreachable
from `build_outline`, which drops empty-cleaned texts first and has `Nat`
pages). -/
structure OutlineEntry where
  level : HLevel
  text : String
  page : Nat
  confidenceScore : ℚ := 1
deriving DecidableEq, Repr

/-- `OutlineEntry.__post_init__` strips the text. -/
def mkOutlineEntry (level : HLevel) (text : String) (page : Nat)
    (conf : ℚ) : OutlineEntry :=
  { level := level, text := pyStrip text, page := page, confidenceScore := conf }

/-- `DocumentOutline` (the unused `processing_metadata` field is omitted). -/
structure DocumentOutline where
  title : String
  outline : List OutlineEntry
deriving DecidableEq, Repr

/-- `DocumentOutline.__post_init__`: blank titles become the placeholder,
other titles are stripped, and the outline is stably sorted by page
number. -/
def mkDocumentOutline (title : String) (outline : List OutlineEntry) : DocumentOutline :=
  { title := if pyStrip title = "" then "Untitled Document" else pyStrip title,
    outline := sortBy (fun a b => decide (a.page < b.page)) outline }

/-! ## Unicode cleaning (src/src/utils/validation.py, `UnicodeHandler`) -/

/-- Unicode category `Cc` (control characters) on the modelled fragment. -/
def isCc (c : Char) : Bool :=
  c.toNat < 0x20 || (0x7f ≤ c.toNat && c.toNat ≤ 0x9f)

/-- `UnicodeHandler.normalize_text`: NFC (the identity on the modelled
fragment), removal of control characters other than `\n\r\t`, and a final
strip. -/
def normalizeTextPy (s : String) : String :=
  if s = "" then ""
  else
    let kept := s.toList.filter (fun c => !isCc c || c == '\n' || c == '\r' || c == '\t')
    ⟨stripList pyIsSpace kept⟩

/-- Fueled driver for global regex removal: at each position either an
occurrence is removed (the matcher consumes at least one character) or the
head character is kept. -/
def remAllGo (tryMatch : List Char → Option (List Char)) : Nat → List Char → List Char
  | 0, l => l
  | _ + 1, [] => []
  | fuel + 1, c :: t =>
    match tryMatch (c :: t) with
    | some rest => remAllGo tryMatch fuel rest
    | none => c :: remAllGo tryMatch fuel t

/-- Global removal of every occurrence of a pattern. -/
def remAll (tryMatch : List Char → Option (List Char)) (l : List Char) : List Char :=
  remAllGo tryMatch l.length l

/-- Matcher for `\(\s*\)`. -/
def mParenEmpty : List Char → Option (List Char)
  | '(' :: t =>
    match t.dropWhile pyIsSpace with
    | ')' :: r => some r
    | _ => none
  | _ => none

/-- Matcher for `\(\s*-\s*-\s*\)`. -/
def mParenDashDash : List Char → Option (List Char)
  | '(' :: t =>
    match t.dropWhile pyIsSpace with
    | '-' :: r2 =>
      match r2.dropWhile pyIsSpace with
      | '-' :: r4 =>
        match r4.dropWhile pyIsSpace with
        | ')' :: r6 => some r6
        | _ => none
      | _ => none
    | _ => none
  | _ => none

/-- Matcher for `\(\s*-+\s*\)`. -/
def mParenDashes : List Char → Option (List Char)
  | '(' :: t =>
    let r1 := t.dropWhile pyIsSpace
    let dashes := r1.takeWhile (fun c => c == '-')
    if dashes.isEmpty then none
    else
      match (r1.dropWhile (fun c => c == '-')).dropWhile pyIsSpace with
      | ')' :: r4 => some r4
      | _ => none
  | _ => none

/-- Matcher for `\[\s*\]`. -/
def mBracketEmpty : List Char → Option (List Char)
  | '[' :: t =>
    match t.dropWhile pyIsSpace with
    | ']' :: r => some r
    | _ => none
  | _ => none

/-- Matcher for `\{\s*\}` (braces written as their code points). -/
def mBraceEmpty : List Char → Option (List Char)
  | '\x7b' :: t =>
    match t.dropWhile pyIsSpace with
    | '\x7d' :: r => some r
    | _ => none
  | _ => none

/-- `re.sub(r'^\s*[-•·]\s*', '', ·)`: one leading-bullet removal. -/
def remLeadingBullet (l : List Char) : List Char :=
  match l.dropWhile pyIsSpace with
  | c :: r =>
    if c == '-' || c == '•' || c == '·' then r.dropWhile pyIsSpace else l
  | [] => l

/-- Fueled driver replacing each whitespace run of length at least two by a
single space (`re.sub(r'\s{2,}', ' ', ·)`); single whitespace characters
are kept as they are. -/
def collapseWsGo : Nat → List Char → List Char
  | 0, l => l
  | _ + 1, [] => []
  | fuel + 1, c :: t =>
    if pyIsSpace c then
      match t with
      | d :: _ =>
        if pyIsSpace d then ' ' :: collapseWsGo fuel (t.dropWhile pyIsSpace)
        else c :: collapseWsGo fuel t
      | [] => [c]
    else c :: collapseWsGo fuel t

/-- Collapse whitespace runs of length at least two to one space. -/
def collapseWs (l : List Char) : List Char := collapseWsGo l.length l

/-- The standalone-punctuation artifacts rejected outright. -/
def standaloneArtifacts : List String :=
  ["()", "( )", "(-)", "( - )", "( - - )", "[]", "\x7b\x7d", "-", "•", "·"]

/-- `UnicodeHandler.clean_extracted_text`: normalization, the ordered
artifact-pattern removals, whitespace collapsing, the standalone-artifact
rejection and a final strip. -/
def cleanExtractedText (s : String) : String :=
  if s = "" then ""
  else
    let l0 := (normalizeTextPy s).toList
    let l1 := remAll mParenEmpty l0
    let l2 := remAll mParenDashDash l1
    let l3 := remAll mParenDashes l2
    let l4 := remAll mBracketEmpty l3
    let l5 := remAll mBraceEmpty l4
    let l6 := remLeadingBullet l5
    let l7 := (l6.reverse.dropWhile pyIsSpace).reverse
    let l8 := l7.dropWhile pyIsSpace
    let l9 := collapseWs l8
    let stripped : String := ⟨stripList pyIsSpace l9⟩
    if standaloneArtifacts.contains stripped then "" else stripped

/-! ## Hierarchy builder (src/src/services/hierarchy_builder.py) -/

/-- The hard-coded title-fragment phrase list of
`HierarchyBuilder._is_title_duplicate`. -/
def titleFragments : List String :=
  ["climate change the role of renewable energy in combating",
   "the role of renewable energy in combating climate change",
   "climate change",
   "the role of renewable energy in combating",
   "in education the importance of mental health awareness",
   "the importance of mental health awareness in education"]

/-- `HierarchyBuilder._is_title_duplicate`. -/
def isTitleDuplicate (headingText documentTitle : String) : Bool :=
  if headingText = "" || documentTitle = "" then false
  else
    let headingLower := pyStrip (pyLower headingText)
    let titleLower := pyStrip (pyLower documentTitle)
    if headingLower = titleLower then true
    else
      let headingWords := (pySplit headingLower).dedup
      let titleWords := (pySplit titleLower).dedup
      let overlap := (headingWords.filter (fun w => titleWords.contains w)).length
      let overlapHit :=
        decide (0 < headingWords.length) &&
        decide ((overlap : ℚ) / (headingWords.length : ℚ) > 8 / 10) &&
        decide (4 < headingWords.length)
      if overlapHit then true
      else titleFragments.contains headingLower

/-- The sort key comparison of `build_outline`:
`(page_number, -position.y1)` ascending. -/
def buildOutlineLt (a b : HeadingCandidate) : Bool :=
  decide (a.textBlock.pageNumber < b.textBlock.pageNumber) ||
    (decide (a.textBlock.pageNumber = b.textBlock.pageNumber) &&
      decide (-a.textBlock.position.y1 < -b.textBlock.position.y1))

/-- The per-candidate filter/constructor step of the `build_outline` loop:
title duplicates, `Body` candidates and empty-cleaned texts are skipped,
everything else becomes an `OutlineEntry` carrying the candidate's
suggested level verbatim. -/
def buildOutlineStep (documentTitle : String) (h : HeadingCandidate) : Option OutlineEntry :=
  if isTitleDuplicate h.text documentTitle || h.suggestedLevel == CandLevel.body then none
  else
    let cleaned := cleanExtractedText h.text
    if cleaned = "" || pyStrip cleaned = "" then none
    else
      match h.suggestedLevel.toHLevel? with
      | some hl => some (mkOutlineEntry hl h.text h.page h.confidenceScore)
      | none => none

/-- `HierarchyBuilder.build_outline`: sort by `(page, -y1)`, filter and
convert each candidate, reverse the collected entries, and build the
`DocumentOutline` (whose constructor re-sorts stably by page). -/
def buildOutline (headings : List HeadingCandidate) (documentTitle : String) : DocumentOutline :=
  if headings.isEmpty then mkDocumentOutline documentTitle []
  else
    let sorted := sortBy buildOutlineLt headings
    let entries := sorted.filterMap (buildOutlineStep documentTitle)
    mkDocumentOutline documentTitle entries.reverse

/-! ## Configuration defaults (src/src/config.py, `ClassificationConfig`) -/

/-- `font_size_weight`. -/
def fontSizeWeight : ℚ := 4 / 10

/-- `font_weight_importance`. -/
def fontWeightImportance : ℚ := 2 / 10

/-- `position_weight`. -/
def positionWeight : ℚ := 2 / 10

/-- `whitespace_weight`. -/
def whitespaceWeight : ℚ := 1 / 10

/-- `text_length_weight`. -/
def textLengthWeight : ℚ := 1 / 10

/-- `max_heading_length`. -/
def maxHeadingLength : Nat := 200

/-- `min_heading_length`. -/
def minHeadingLength : Nat := 3

/-- `heading_confidence_threshold`. -/
def headingConfidenceThreshold : ℚ := 3 / 10

/-- `title_confidence_threshold`. -/
def titleConfidenceThreshold : ℚ := 5 / 10

/-- `title_consensus_threshold`. -/
def titleConsensusThreshold : ℚ := 9 / 10

/-- `fragment_merge_threshold`. -/
def fragmentMergeThreshold : ℚ := 2 / 10

/-! ## Font analyzer (src/src/services/font_analyzer.py) -/

/-- Minimum of a rational list (`min(...)` is only applied to nonempty
lists; the default matches the `(0, 0)` range fallbacks). -/
def qMin : List ℚ → ℚ
  | [] => 0
  | x :: t => t.foldl min x

/-- Maximum of a rational list. -/
def qMax : List ℚ → ℚ
  | [] => 0
  | x :: t => t.foldl max x

/-- `FontAnalyzer._calculate_relative_rankings` (the in-place mutation is
modelled by rebuilding the block list): ranks index into the descending
sorted list of distinct sizes. -/
def assignRanks (blocks : List TextBlock) : List TextBlock :=
  let uniqueSizes := sortBy (fun a b => decide (b < a)) (blocks.map (·.fontMetadata.size)).dedup
  blocks.map (fun b =>
    { b with fontMetadata :=
        { b.fontMetadata with relativeSizeRank := uniqueSizes.indexOf b.fontMetadata.size } })

/-- The slice of `analyze_font_relationships` that is read downstream:
presence flag, min/max size, and per-family percentages.  (Mean, median,
standard deviation, weight statistics, rank table and heading-font buckets
are computed by the source but never consumed by the scoring path.) -/
structure FontAnalysis where
  hasStats : Bool
  minSize : ℚ
  maxSize : ℚ
  familyPct : List (String × ℚ)
deriving DecidableEq, Repr

/-- `FontAnalyzer.analyze_font_relationships` (consumed slice). -/
def analyzeFontRelationships (blocks : List TextBlock) : FontAnalysis :=
  if blocks.isEmpty then
    { hasStats := false, minSize := 0, maxSize := 0, familyPct := [] }
  else
    let sizes := blocks.map (·.fontMetadata.size)
    { hasStats := true,
      minSize := qMin sizes,
      maxSize := qMax sizes,
      familyPct := (blocks.map (·.fontMetadata.family)).dedup.map (fun f =>
        (f, ((blocks.filter (fun b => b.fontMetadata.family == f)).length : ℚ)
            / (blocks.length : ℚ) * 100)) }

/-- Percentage lookup with the `.get(..., {}).get('percentage', 0)`
default. -/
def familyPctOf (fa : FontAnalysis) (family : String) : ℚ :=
  match fa.familyPct.find? (fun p => p.1 == family) with
  | some p => p.2
  | none => 0

/-- Size-interpolation term of the font score. -/
def fsSizeAdj (block : TextBlock) (fa : FontAnalysis) : ℚ :=
  if fa.maxSize > fa.minSize then
    (block.fontMetadata.size - fa.minSize) / (fa.maxSize - fa.minSize) * fontSizeWeight
  else 0

/-- Bold-weight term of the font score. -/
def fsBoldAdj (block : TextBlock) : ℚ :=
  if block.styling.isBold || block.fontMetadata.weight == "bold" then fontWeightImportance
  else 0

/-- Top-3-rank term of the font score. -/
def fsRankAdj (block : TextBlock) : ℚ :=
  if block.fontMetadata.relativeSizeRank ≤ 2 then 1 / 10 else 0

/-- Rare-family term of the font score. -/
def fsFamilyAdj (block : TextBlock) (fa : FontAnalysis) : ℚ :=
  if familyPctOf fa block.fontMetadata.family < 50 then 5 / 100 else 0

/-- `FontAnalyzer.calculate_font_score`. -/
def calculateFontScore (block : TextBlock) (fa : FontAnalysis) : ℚ :=
  if !fa.hasStats then 0
  else
    min (fsSizeAdj block fa + fsBoldAdj block + fsRankAdj block + fsFamilyAdj block fa) 1

/-! ## Heading classifier scoring (src/src/services/heading_classifier.py) -/

/-- The document context dictionary slice read by the scorers: font
analysis, coordinate ranges, and the block population (page grouping is
recovered by filtering, which preserves the original order exactly as the
`blocks_by_page` dictionary does). -/
structure DocumentContext where
  fontAnalysis : FontAnalysis
  yMin : ℚ
  yMax : ℚ
  xMin : ℚ
  xMax : ℚ
  blocks : List TextBlock
deriving DecidableEq, Repr

/-- `HeadingClassifier._create_document_context` (consumed slice). -/
def createDocumentContext (blocks : List TextBlock) (fa : FontAnalysis) : DocumentContext :=
  { fontAnalysis := fa,
    yMin := qMin (blocks.map (·.position.y1)),
    yMax := qMax (blocks.map (·.position.y1)),
    xMin := qMin (blocks.map (·.position.x0)),
    xMax := qMax (blocks.map (·.position.x0)),
    blocks := blocks }

/-- Vertical-position term of the position score. -/
def psYAdj (block : TextBlock) (ctx : DocumentContext) : ℚ :=
  if ctx.yMax > ctx.yMin then
    (block.position.y1 - ctx.yMin) / (ctx.yMax - ctx.yMin) * (3 / 10)
  else 0

/-- Left-margin term of the position score. -/
def psLeftAdj (block : TextBlock) (ctx : DocumentContext) : ℚ :=
  if ctx.xMax > ctx.xMin ∧ (block.position.x0 - ctx.xMin) / (ctx.xMax - ctx.xMin) < 1 / 10
  then 2 / 10 else 0

/-- First-page term of the position score. -/
def psPageAdj (block : TextBlock) : ℚ :=
  if block.pageNumber == 0 then 1 / 10 else 0

/-- `HeadingClassifier._calculate_position_score`. -/
def calculatePositionScore (block : TextBlock) (ctx : DocumentContext) : ℚ :=
  min (psYAdj block ctx + psLeftAdj block ctx + psPageAdj block) 1

/-- `HeadingClassifier._calculate_whitespace_score`. -/
def calculateWhitespaceScore (block : TextBlock) (ctx : DocumentContext) : ℚ :=
  let pageBlocks := ctx.blocks.filter (fun b => b.pageNumber == block.pageNumber)
  if 1 < pageBlocks.length then
    let sorted := sortBy (fun a b => decide (b.position.y1 < a.position.y1)) pageBlocks
    match sorted.findIdx? (fun b => b == block) with
    | none => min 0 1
    | some i =>
      let s1 : ℚ :=
        if 0 < i then
          let above := sorted.getD (i - 1) block
          if above.position.y0 - block.position.y1 > 10 then 3 / 10 else 0
        else 0
      let s2 := s1 +
        (if i < sorted.length - 1 then
          let below := sorted.getD (i + 1) block
          if block.position.y0 - below.position.y1 > 10 then 3 / 10 else 0
         else 0)
      min s2 1
  else min 0 1

/-- Replace every whitespace run by a single space
(`re.sub(r'\s+', ' ', ·)`), fueled driver. -/
def collapseAllWsGo : Nat → List Char → List Char
  | 0, l => l
  | _ + 1, [] => []
  | fuel + 1, c :: t =>
    if pyIsSpace c then ' ' :: collapseAllWsGo fuel (t.dropWhile pyIsSpace)
    else c :: collapseAllWsGo fuel t

/-- Replace every whitespace run by a single space. -/
def collapseAllWs (l : List Char) : List Char := collapseAllWsGo l.length l

/-- The literal artifact strings rejected by
`_calculate_text_pattern_score` (duplicates kept as in the source). -/
def artifactStrings : List String :=
  ["( )", "( - )", "( - - )", "(-)", "[]", "\x7b\x7d", "...", "..", ".",
   "( )", "()", "( - )", "(-)", "( -- )", "(--)", "( --- )", "(---)"]

/-- The anchored artifact regex tests of `_calculate_text_pattern_score`:
`^\(\s*\)$`, `^\(\s*-+\s*\)$`, `^\[\s*\]$`, `^\{\s*\}$`, `^\.+$`, `^-+$`. -/
def regexArtifact (text : String) : Bool :=
  let l := text.toList
  mParenEmpty l == some [] || mParenDashes l == some [] ||
    mBracketEmpty l == some [] || mBraceEmpty l == some [] ||
    (!l.isEmpty && l.all (fun c => c == '.')) ||
    (!l.isEmpty && l.all (fun c => c == '-'))

/-- `^\d+\.?\s+`: digits, an optional dot, then at least one whitespace
character. -/
def matchNumHeading (text : String) : Bool :=
  let l := text.toList
  let ds := l.takeWhile isAsciiDigit
  let r := l.dropWhile isAsciiDigit
  !ds.isEmpty &&
    (match r with
     | '.' :: r2 => (match r2 with | c :: _ => pyIsSpace c | [] => false)
     | c :: _ => pyIsSpace c
     | [] => false)

/-- `^Chapter\s+\d+` with `re.IGNORECASE`. -/
def matchChapterNum (text : String) : Bool :=
  let l := text.toList
  ((l.take 7).map pyLowerChar == "chapter".toList) &&
    (let r := l.drop 7
     let ws := r.takeWhile pyIsSpace
     let r2 := r.dropWhile pyIsSpace
     !ws.isEmpty && (match r2 with | c :: _ => isAsciiDigit c | [] => false))

/-- The heading vocabulary rewarded by the text-pattern score (substring
containment). -/
def headingVocab : List String :=
  ["introduction", "conclusion", "abstract", "summary", "chapter", "section", "appendix"]

/-- The function words whose presence penalizes long text. -/
def articleWords : List String :=
  ["the", "a", "an", "and", "or", "but", "in", "on", "at", "to", "for", "of", "with"]

/-- First character uppercase test (`text[0].isupper() if text else False`). -/
def firstCharUpper (text : String) : Bool :=
  match text.toList with
  | c :: _ => isAsciiUpper c
  | [] => false

/-- Length-band adjustment of the text-pattern score (long-text penalty,
optimal-band reward, longer-band reward). -/
def tpLengthAdj (text : String) : ℚ :=
  if 150 < text.length then -(3 / 10 : ℚ)
  else if minHeadingLength ≤ text.length ∧ text.length ≤ 100 then 3 / 10
  else if text.length ≤ maxHeadingLength then 2 / 10
  else 0

/-- Capitalization adjustment (all caps, title case, initial capital). -/
def tpCapAdj (text : String) : ℚ :=
  if pyIsUpper text then 2 / 10
  else if pyIsTitle text then 3 / 10
  else if firstCharUpper text then 1 / 10
  else 0

/-- No-trailing-period reward. -/
def tpPunctAdj (text : String) : ℚ :=
  if !pyEndsWithChar text '.' then 2 / 10 else 0

/-- Numbering-pattern reward (`"1. ..."`, `"Chapter 2"`). -/
def tpNumAdj (text : String) : ℚ :=
  if matchNumHeading text || matchChapterNum text then 3 / 10 else 0

/-- Heading-vocabulary reward. -/
def tpVocabAdj (text : String) : ℚ :=
  if headingVocab.any (fun w => pyContains (pyLower text) w) then 2 / 10 else 0

/-- Multi-word reward. -/
def tpWordsAdj (text : String) : ℚ :=
  if 2 ≤ (pySplit text).length then 1 / 10 else 0

/-- Function-word penalty for long text. -/
def tpArticleAdj (text : String) : ℚ :=
  if 100 < text.length &&
      ((pySplit text).take 10).any (fun w => articleWords.contains (pyLower w))
  then -(3 / 10 : ℚ) else 0

/-- The main accumulation of `_calculate_text_pattern_score`, after the
artifact rejections and the short-text gate contributed `score0`. -/
def textPatternMain (text : String) (score0 : ℚ) : ℚ :=
  if !(text.toList.any (fun c => isAsciiLetter c || isAsciiDigit c)) then 0
  else if 1 < pyCountChar text '。' + pyCountChar text '.' +
      pyCountChar text '!' + pyCountChar text '?' then 0
  else if 200 < text.length then 0
  else
    min (score0 + tpLengthAdj text + tpCapAdj text + tpPunctAdj text + tpNumAdj text +
      tpVocabAdj text + tpWordsAdj text + tpArticleAdj text) 1

/-- `HeadingClassifier._calculate_text_pattern_score`. -/
def calculateTextPatternScore (block : TextBlock) : ℚ :=
  let text := pyStrip block.text
  let normalized := pyStrip ⟨collapseAllWs text.toList⟩
  if artifactStrings.contains normalized then 0
  else if regexArtifact text then 0
  else if text.length ≤ 2 then
    if text.toList.any isAsciiLetter && pyIsUpper text then textPatternMain text (1 / 10)
    else if pyIsDigitStr text then textPatternMain text (1 / 10)
    else 0
  else textPatternMain text 0

/-- `HeadingClassifier._calculate_length_score`. -/
def calculateLengthScore (block : TextBlock) : ℚ :=
  let n := (pyStrip block.text).length
  if n = 0 then 0
  else if minHeadingLength ≤ n ∧ n ≤ 50 then 1
  else if n ≤ maxHeadingLength then
    max 0 (1 - ((n : ℚ) - 50) / ((maxHeadingLength : ℚ) - 50))
  else 0

/-- `HeadingClassifier.calculate_heading_score`: the weighted combination,
clamped above at 1. -/
def calculateHeadingScore (block : TextBlock) (ctx : DocumentContext) : ℚ :=
  min (calculateFontScore block ctx.fontAnalysis * fontSizeWeight +
       calculatePositionScore block ctx * positionWeight +
       calculateWhitespaceScore block ctx * whitespaceWeight +
       calculateTextPatternScore block * textLengthWeight +
       calculateLengthScore block * (1 / 10)) 1

/-- `HeadingClassifier._calculate_classification_factors`. -/
def calcClassificationFactors (block : TextBlock) (ctx : DocumentContext) : ClassificationFactors :=
  { fontScore := calculateFontScore block ctx.fontAnalysis,
    positionScore := calculatePositionScore block ctx,
    whitespaceScore := calculateWhitespaceScore block ctx,
    textPatternScore := calculateTextPatternScore block,
    lengthScore := calculateLengthScore block,
    fontSize := block.fontMetadata.size,
    relativeSizeRank := block.fontMetadata.relativeSizeRank,
    textLength := (pyStrip block.text).length }

/-- `^\d+\.\d+`: digits, a dot, digits. -/
def matchNumDotNum (s : String) : Bool :=
  let l := s.toList
  let ds := l.takeWhile isAsciiDigit
  !ds.isEmpty &&
    (match l.dropWhile isAsciiDigit with
     | '.' :: r2 => (match r2 with | c :: _ => isAsciiDigit c | [] => false)
     | _ => false)

/-- `^\d+\.`: digits then a dot. -/
def matchNumDot (s : String) : Bool :=
  let l := s.toList
  let ds := l.takeWhile isAsciiDigit
  !ds.isEmpty &&
    (match l.dropWhile isAsciiDigit with
     | '.' :: _ => true
     | _ => false)

/-- `^\s*page\s*\d+\s*(of\s*\d+)?\s*$` with `re.IGNORECASE`. -/
def matchPageFooter (text : String) : Bool :=
  let l := text.toList.map pyLowerChar
  let l1 := l.dropWhile pyIsSpace
  if l1.take 4 == "page".toList then
    let l2 := (l1.drop 4).dropWhile pyIsSpace
    let ds := l2.takeWhile isAsciiDigit
    if ds.isEmpty then false
    else
      let l4 := (l2.dropWhile isAsciiDigit).dropWhile pyIsSpace
      if l4.isEmpty then true
      else if l4.take 2 == "of".toList then
        let l5 := (l4.drop 2).dropWhile pyIsSpace
        let ds2 := l5.takeWhile isAsciiDigit
        !ds2.isEmpty && ((l5.dropWhile isAsciiDigit).dropWhile pyIsSpace).isEmpty
      else false
  else false

/-- `HeadingClassifier.determine_heading_level`: three competing scores,
each starting from the candidate's confidence, adjusted by font rank,
first-page position, text patterns and the footer penalty.  Python's
`max(scores, key=scores.get)` over the dict `{"H1","H2","H3"}` returns the
first key attaining the maximum, so ties prefer H1, then H2. -/
def determineHeadingLevel (candidate : HeadingCandidate) : CandLevel :=
  let block := candidate.textBlock
  let base := candidate.confidenceScore
  let rank := candidate.classificationFactors.relativeSizeRank
  let textLower := pyLower block.text
  let introHit := ["introduction", "conclusion", "abstract"].any
    (fun w => pyContains textLower w)
  let nDotN := matchNumDotNum textLower
  let nDot := matchNumDot textLower
  let footer := matchPageFooter textLower
  let h1 := base + (if rank = 0 then (6 : ℚ) / 10 else if rank = 1 then 2 / 10 else 0) +
    (if block.pageNumber = 0 ∧ block.position.y1 > 700 then (4 : ℚ) / 10 else 0) +
    (if introHit then (2 : ℚ) / 10 else 0) +
    (if nDotN then -(3 : ℚ) / 10 else if nDot then 15 / 100 else 0) +
    (if footer then -(2 : ℚ) else 0)
  let h2 := base + (if rank = 1 then (5 : ℚ) / 10 else if rank = 2 then 2 / 10 else 0) +
    (if introHit then -(1 : ℚ) / 10 else 0) +
    (if nDotN then (3 : ℚ) / 10 else if nDot then 15 / 100 else 0) +
    (if footer then -(2 : ℚ) else 0)
  let h3 := base + (if rank = 2 then (5 : ℚ) / 10 else if rank ≤ 1 then 0 else 2 / 10) +
    (if nDotN then (2 : ℚ) / 10 else 0) +
    (if footer then -(2 : ℚ) else 0)
  if max h1 (max h2 h3) < headingConfidenceThreshold then CandLevel.body
  else if h1 ≥ h2 ∧ h1 ≥ h3 then CandLevel.H1
  else if h2 ≥ h3 then CandLevel.H2
  else CandLevel.H3

/-- `HeadingClassifier._is_potential_fragment`. -/
def isPotentialFragment (block : TextBlock) (factors : ClassificationFactors) : Bool :=
  let text := pyStrip block.text
  let looks := decide (text.length ≤ 15) && decide (factors.fontScore > 15 / 100) &&
    (decide (factors.positionScore > 5 / 100) || decide (factors.whitespaceScore > 1 / 10))
  let largeFontLow := decide (factors.fontSize > 15) && decide (factors.relativeSizeRank ≤ 3) &&
    decide (2 / 10 ≤ factors.fontScore ∧ factors.fontScore < 4 / 10)
  looks || largeFontLow

/-- The `(page, y1, x0)` ascending sort key shared by both merge passes. -/
def mergeSortLt (a b : HeadingCandidate) : Bool :=
  decide (a.textBlock.pageNumber < b.textBlock.pageNumber) ||
    (decide (a.textBlock.pageNumber = b.textBlock.pageNumber) &&
      (decide (a.textBlock.position.y1 < b.textBlock.position.y1) ||
        (decide (a.textBlock.position.y1 = b.textBlock.position.y1) &&
          decide (a.textBlock.position.x0 < b.textBlock.position.x0))))

/-- `HeadingClassifier._should_merge_heading_candidates` (cross-position
pass predicate). -/
def shouldMergeCandidates (c1 c2 : HeadingCandidate) : Bool :=
  let b1 := c1.textBlock
  let b2 := c2.textBlock
  decide (b1.pageNumber = b2.pageNumber) &&
    (b1.fontMetadata.family == b2.fontMetadata.family &&
      decide (|b1.fontMetadata.size - b2.fontMetadata.size| < 1) &&
      b1.fontMetadata.weight == b2.fontMetadata.weight) &&
    decide (b2.position.x0 - b1.position.x1 ≤ 50) &&
    decide (|(b1.position.y0 + b1.position.y1) / 2 - (b2.position.y0 + b2.position.y1) / 2| ≤
      max b1.position.height b2.position.height * (3 / 10)) &&
    (decide ((pyStrip b1.text).length ≤ 5) || decide ((pyStrip b2.text).length ≤ 5))

/-- `HeadingClassifier._are_same_line_candidates` (same-line pass
predicate). -/
def areSameLineCandidates (c1 c2 : HeadingCandidate) : Bool :=
  let b1 := c1.textBlock
  let b2 := c2.textBlock
  decide (b1.pageNumber = b2.pageNumber) &&
    (b1.fontMetadata.family == b2.fontMetadata.family &&
      decide (|b1.fontMetadata.size - b2.fontMetadata.size| < 1 / 10) &&
      b1.fontMetadata.weight == b2.fontMetadata.weight &&
      b1.fontMetadata.style == b2.fontMetadata.style) &&
    decide (|b1.position.y1 - b2.position.y1| <
      (b1.position.height + b2.position.height) / 2 * (1 / 10)) &&
    decide (-10 ≤ b2.position.x0 - b1.position.x1 ∧ b2.position.x0 - b1.position.x1 ≤ 100)

/-- The bounding-box union assigned to the base candidate when a group is
merged. -/
def unionBox (cands : List HeadingCandidate) (dflt : PositionInfo) : PositionInfo :=
  match cands.map (·.textBlock.position) with
  | [] => dflt
  | p :: ps =>
    let x0 := (ps.map (·.x0)).foldl min p.x0
    let y0 := (ps.map (·.y0)).foldl min p.y0
    let x1 := (ps.map (·.x1)).foldl max p.x1
    let y1 := (ps.map (·.y1)).foldl max p.y1
    { x0 := x0, y0 := y0, x1 := x1, y1 := y1, width := x1 - x0, height := y1 - y0 }

/-- The maximal confidence of a group. -/
def maxConfidence (cands : List HeadingCandidate) : ℚ :=
  match cands.map (·.confidenceScore) with
  | [] => 0
  | c :: cs => cs.foldl max c

/-- Text combination of `_merge_candidate_group`: a space is inserted
before a nonempty fragment whose gap to its positional predecessor exceeds
5 units. -/
def combineTextGap (sorted : List HeadingCandidate) : String :=
  match sorted with
  | [] => ""
  | c0 :: rest =>
    let t0 := pyStrip c0.text
    let init := if t0 = "" then "" else t0
    (rest.zip (c0 :: rest)).foldl (fun acc p =>
      let t := pyStrip p.1.text
      if t = "" then acc
      else if p.1.textBlock.position.x0 - p.2.textBlock.position.x1 > 5 then acc ++ " " ++ t
      else acc ++ t) init

/-- Text combination of `_merge_same_line_group`: a space is always
inserted before a later nonempty fragment. -/
def combineTextAlways (sorted : List HeadingCandidate) : String :=
  match sorted with
  | [] => ""
  | c0 :: rest =>
    let t0 := pyStrip c0.text
    let init := if t0 = "" then "" else t0
    rest.foldl (fun acc c =>
      let t := pyStrip c.text
      if t = "" then acc else acc ++ " " ++ t) init

/-- `HeadingClassifier._merge_candidate_group` (in-place mutation of the
base candidate modelled by constructing the updated candidate). -/
def mergeCandidateGroup (cands : List HeadingCandidate) : HeadingCandidate :=
  match sortBy (fun a b => decide (a.textBlock.position.x0 < b.textBlock.position.x0)) cands with
  | [] => ⟨mkTextBlock "" 0 ⟨0, "", "", "", 0⟩ ⟨0, 0, 0, 0, 0, 0⟩ ⟨false, false, false⟩, 0,
      ⟨0, 0, 0, 0, 0, 0, 0, 0⟩, CandLevel.body⟩
  | base :: rest =>
    { base with
      textBlock :=
        { base.textBlock with
          text := combineTextGap (base :: rest),
          position := unionBox (base :: rest) base.textBlock.position },
      confidenceScore := maxConfidence (base :: rest) }

/-- `HeadingClassifier._merge_same_line_group`. -/
def mergeSameLineGroup (cands : List HeadingCandidate) : HeadingCandidate :=
  match sortBy (fun a b => decide (a.textBlock.position.x0 < b.textBlock.position.x0)) cands with
  | [] => ⟨mkTextBlock "" 0 ⟨0, "", "", "", 0⟩ ⟨0, 0, 0, 0, 0, 0⟩ ⟨false, false, false⟩, 0,
      ⟨0, 0, 0, 0, 0, 0, 0, 0⟩, CandLevel.body⟩
  | base :: rest =>
    { base with
      textBlock :=
        { base.textBlock with
          text := combineTextAlways (base :: rest),
          position := unionBox (base :: rest) base.textBlock.position },
      confidenceScore := maxConfidence (base :: rest) }

/-- The greedy scan shared by both merge passes: starting a group at the
current candidate, extend it while the pairwise predicate holds between
the group's first element and the next candidate, merge groups of size at
least two, and continue after the group. -/
def mergeScan (pred : HeadingCandidate → HeadingCandidate → Bool)
    (mergeGroup : List HeadingCandidate → HeadingCandidate) :
    List HeadingCandidate → List HeadingCandidate
  | [] => []
  | c :: rest =>
    let grp := rest.takeWhile (pred c)
    let rest2 := rest.dropWhile (pred c)
    (if grp.isEmpty then c else mergeGroup (c :: grp)) :: mergeScan pred mergeGroup rest2
termination_by l => l.length
decreasing_by
  simp_wf
  exact Nat.lt_succ_of_le (List.Sublist.length_le ((List.dropWhile_suffix _).sublist))

/-- `HeadingClassifier._merge_heading_fragments` (cross-position pass). -/
def mergeHeadingFragments (cands : List HeadingCandidate) : List HeadingCandidate :=
  if cands.isEmpty then cands
  else mergeScan shouldMergeCandidates mergeCandidateGroup (sortBy mergeSortLt cands)

/-- `HeadingClassifier._merge_same_line_candidates` (same-line pass). -/
def mergeSameLineCandidates (cands : List HeadingCandidate) : List HeadingCandidate :=
  if cands.isEmpty then cands
  else mergeScan areSameLineCandidates mergeSameLineGroup (sortBy mergeSortLt cands)

/-- The two merge passes in pipeline order. -/
def mergePasses (cands : List HeadingCandidate) : List HeadingCandidate :=
  mergeSameLineCandidates (mergeHeadingFragments cands)

/-- `HeadingClassifier.classify_text_blocks`: rank assignment, scoring
with adaptive thresholds, level determination, fragment pooling, the two
merge passes, and the final stable sort by descending confidence. -/
def classifyTextBlocks (blocks : List TextBlock) : List HeadingCandidate :=
  if blocks.isEmpty then []
  else
    let blocksR := assignRanks blocks
    let fa := analyzeFontRelationships blocksR
    let ctx := createDocumentContext blocksR fa
    let scored := blocksR.filterMap (fun b =>
      let conf := calculateHeadingScore b ctx
      let factors := calcClassificationFactors b ctx
      let isFrag := isPotentialFragment b factors
      let threshold := if isFrag then fragmentMergeThreshold else headingConfidenceThreshold
      if conf ≥ threshold then
        let level := determineHeadingLevel ⟨b, conf, factors, CandLevel.body⟩
        some (HeadingCandidate.mk b conf factors level, isFrag)
      else none)
    let pooled := (scored.filter (fun p => !p.2)).map (·.1) ++
      (scored.filter (fun p => p.2)).map (·.1)
    sortBy (fun a b => decide (b.confidenceScore < a.confidenceScore)) (mergePasses pooled)

/-! ## Title detector (src/src/services/title_detector.py) -/

/-- Python `" ".join(...)`. -/
def joinSpace : List String → String
  | [] => ""
  | t :: rest => rest.foldl (fun acc s => acc ++ " " ++ s) t

/-- Python `str.startswith`. -/
def pyStartsWith (s pre : String) : Bool := pre.toList.isPrefixOf s.toList

/-- The function words penalized by `_calculate_title_score`
(`\b(the|and|of|in|to|for|with|on|at|by|from)\b`). -/
def bodyFnWords : List String :=
  ["the", "and", "of", "in", "to", "for", "with", "on", "at", "by", "from"]

/-- `TitleDetector._calculate_title_score`. -/
def calculateTitleScore (block : TextBlock) (pageBlocks : List TextBlock) : ℚ :=
  let text := pyStrip block.text
  let s1 : ℚ :=
    if !pageBlocks.isEmpty then
      (let maxSize := qMax (pageBlocks.map (·.fontMetadata.size))
       if maxSize > 0 then block.fontMetadata.size / maxSize * (4 / 10) else 0)
    else 0
  let s2 := s1 +
    (if !pageBlocks.isEmpty then
      (let ys := pageBlocks.map (·.position.y1)
       if qMax ys > qMin ys then
         (block.position.y1 - qMin ys) / (qMax ys - qMin ys) * (3 / 10)
       else 0)
     else 0)
  let s3 := s2 +
    (if 10 ≤ text.length ∧ text.length ≤ 100 then (2 : ℚ) / 10
     else if 5 ≤ text.length ∧ text.length ≤ 150 then 1 / 10
     else 0)
  let s4 := s3 +
    (if block.styling.isBold || block.fontMetadata.weight == "bold" then (1 : ℚ) / 10 else 0)
  let s5 := s4 + (if pyIsTitle text then (1 : ℚ) / 10 else if pyIsUpper text then 5 / 100 else 0)
  let s6 := s5 + (if pyEndsWithChar text '.' && decide (50 < text.length) then -(2 : ℚ) / 10 else 0)
  let s7 := s6 +
    (if containsWordFrom bodyFnWords (pyLower text) && decide (80 < text.length)
     then -(1 : ℚ) / 10 else 0)
  let s8 := s7 + (if matchPageFooter text then -(8 : ℚ) / 10 else 0)
  max 0 (min s8 1)

/-- The `(confidence, y1)` descending sort used on first-page title
candidates. -/
def titleSortDescLt (a b : HeadingCandidate) : Bool :=
  decide (b.confidenceScore < a.confidenceScore) ||
    (decide (b.confidenceScore = a.confidenceScore) &&
      decide (b.textBlock.position.y1 < a.textBlock.position.y1))

/-- `TitleDetector._find_title_candidates_from_headings`. -/
def titleCandsFromHeadings (hcs : List HeadingCandidate) : List (String × ℚ) :=
  let fpH1 := hcs.filter (fun c =>
    c.suggestedLevel == CandLevel.H1 && c.textBlock.pageNumber == 0 &&
      decide (c.confidenceScore ≥ titleConfidenceThreshold))
  let c1 : List (String × ℚ) :=
    match sortBy titleSortDescLt fpH1 with
    | [] => []
    | top :: _ => [(pyStrip top.text, min 1 (top.confidenceScore + 3 / 10))]
  let fp := hcs.filter (fun c =>
    c.textBlock.pageNumber == 0 && decide (c.confidenceScore ≥ titleConfidenceThreshold))
  (sortBy titleSortDescLt fp).foldl (fun acc c =>
    if acc.any (fun q => q.1 == pyStrip c.text) then acc
    else acc ++ [(pyStrip c.text, c.confidenceScore * (8 / 10))]) c1

/-- `TitleDetector._find_title_candidates_from_font_analysis`: groups of
maximal-font first-page blocks merged across small vertical gaps. -/
def titleCandsFromFontAnalysis (blocks : List TextBlock) : List (String × ℚ) :=
  let firstPage := blocks.filter (fun b => b.pageNumber == 0)
  if firstPage.isEmpty then []
  else
    let maxFont := qMax (firstPage.map (·.fontMetadata.size))
    let largest := firstPage.filter (fun b => b.fontMetadata.size == maxFont)
    if largest.isEmpty then []
    else
      let sorted := sortBy (fun a b => decide (a.position.y1 < b.position.y1)) largest
      let st := sorted.foldl (fun (st : List (List TextBlock) × List TextBlock) b =>
        match st.2 with
        | [] => (st.1, [b])
        | last :: _ =>
          if 0 < b.position.y1 - last.position.y1 ∧
              b.position.y1 - last.position.y1 < last.fontMetadata.size * 2
          then (st.1, b :: st.2)
          else (st.1 ++ [st.2.reverse], [b])) ([], [])
      let groups := st.1 ++ (if st.2.isEmpty then [] else [st.2.reverse])
      groups.filterMap (fun g =>
        match g with
        | [] => none
        | b0 :: _ =>
          let merged := joinSpace (g.map (fun b => pyStrip b.text))
          if merged.length < 3 ∨ 200 < merged.length then none
          else if pyEndsWithChar merged '.' && decide (100 < merged.length) then none
          else
            let score0 := calculateTitleScore b0 firstPage
            let score := if 1 < g.length then min 1 (score0 + 25 / 100) else score0
            some (merged, score))

/-- `TitleDetector._find_title_candidates_from_placement`: blocks within
the top 20% of the first page's vertical extent. -/
def titleCandsFromPlacement (blocks : List TextBlock) : List (String × ℚ) :=
  let firstPage := blocks.filter (fun b => b.pageNumber == 0)
  if firstPage.isEmpty then []
  else
    let sorted := sortBy (fun a b => decide (b.position.y1 < a.position.y1)) firstPage
    let maxY := qMax (sorted.map (·.position.y1))
    let minY := qMin (sorted.map (·.position.y1))
    let threshold := maxY - (maxY - minY) * (2 / 10)
    (sorted.filter (fun b => decide (b.position.y1 ≥ threshold))).filterMap (fun b =>
      let text := pyStrip b.text
      if text.length < 3 ∨ 200 < text.length then none
      else
        let score := calculateTitleScore b sorted
        if score > 3 / 10 then some (text, score * (9 / 10)) else none)

/-- `TitleDetector._get_fallback_title`. -/
def getFallbackTitle (blocks : List TextBlock) : String :=
  let firstPage := blocks.filter (fun b => b.pageNumber == 0)
  let sorted := sortBy (fun a b => decide (b.position.y1 < a.position.y1)) firstPage
  match sorted.find? (fun b =>
      decide (5 ≤ (pyStrip b.text).length) && decide ((pyStrip b.text).length ≤ 150)) with
  | some b => pyStrip b.text
  | none => "Untitled Document"

/-- `str.rsplit(' ', 1)[0]`: drop everything from the last space onward. -/
def rsplitLastSpace (l : List Char) : List Char :=
  match l.reverse.dropWhile (fun c => !(c == ' ')) with
  | c :: rest => if c == ' ' then rest.reverse else l
  | [] => l

/-- `TitleDetector.validate_title`: strip, whitespace-normalize, cap at
200 characters breaking at a word boundary, placeholder for blanks. -/
def validateTitle (title : String) : String :=
  if title = "" then "Untitled Document"
  else
    let t1 := pyStrip title
    let t2 : String := ⟨collapseAllWs t1.toList⟩
    let t3 :=
      if 200 < t2.length then
        (let t : String := pyStrip ⟨t2.toList.take 200⟩
         if t.toList.contains ' ' then (⟨rsplitLastSpace t.toList⟩ : String) else t)
      else t2
    if t3.length < 1 then "Untitled Document" else t3

/-- `TitleDetector._could_be_title_fragments`. -/
def couldBeTitleFragments (c1 c2 : HeadingCandidate) : Bool :=
  decide (c1.textBlock.pageNumber = c2.textBlock.pageNumber) &&
    decide (|c1.textBlock.position.y1 - c2.textBlock.position.y1| ≤
      max c1.textBlock.position.height c2.textBlock.position.height * 2) &&
    (decide (|c1.textBlock.fontMetadata.size - c2.textBlock.fontMetadata.size| < 2) &&
      c1.textBlock.fontMetadata.family == c2.textBlock.fontMetadata.family &&
      c1.textBlock.fontMetadata.weight == c2.textBlock.fontMetadata.weight) &&
    !(decide (c1.confidenceScore < 4 / 10) || decide (c2.confidenceScore < 4 / 10))

/-- `TitleDetector._merge_title_fragments`. -/
def mergeTitleFragments (c1 c2 : HeadingCandidate) : Option String :=
  let pair := if c1.textBlock.position.y1 > c2.textBlock.position.y1 then (c1, c2) else (c2, c1)
  let merged : String :=
    pyStrip ⟨collapseAllWs (pyStrip pair.1.text ++ " " ++ pyStrip pair.2.text).toList⟩
  if 10 < merged.length then some merged else none

/-- `TitleDetector._merge_three_title_fragments`. -/
def mergeThreeTitleFragments (c1 c2 c3 : HeadingCandidate) : Option String :=
  let sorted := sortBy (fun a b => decide (b.textBlock.position.y1 < a.textBlock.position.y1))
    [c1, c2, c3]
  let merged : String :=
    pyStrip ⟨collapseAllWs (joinSpace (sorted.map (fun c => pyStrip c.text))).toList⟩
  if 15 < merged.length then some merged else none

/-- `TitleDetector._is_likely_complete_title` (both terminal branches of
the source return `True`, so only the rejection tests matter). -/
def isLikelyCompleteTitle (title : String) : Bool :=
  !(title == "") && decide (10 ≤ title.length) && decide (title.length ≤ 200) &&
    !(pyEndsWithChar title '.' && decide (100 < title.length)) &&
    decide (3 ≤ (pySplit title).length)

/-- Reordering pattern 1 of `_reconstruct_fragmented_title`
("Climate Change The Role of ..."). -/
def reorderPattern1 (text : String) : Option String :=
  let tl := pyLower text
  if pyContains tl "climate change" && pyContains tl "role" &&
      pyContains tl "renewable" && pyContains tl "combating" then
    if pyStartsWith tl "climate change" then
      match pySplit text with
      | p0 :: p1 :: rest =>
        if pyLower p0 == "climate" && pyLower p1 == "change" then
          let remaining := pyStrip (joinSpace rest)
          if remaining ≠ "" then some (remaining ++ " Climate Change") else some text
        else some text
      | _ => some text
    else some text
  else none

/-- Reordering pattern 2 of `_reconstruct_fragmented_title`
("in Education The Importance of ..."). -/
def reorderPattern2 (text : String) : Option String :=
  let tl := pyLower text
  if pyContains tl "education" && pyContains tl "importance" &&
      pyContains tl "mental health" && pyContains tl "awareness" then
    if pyStartsWith tl "in education" then
      match pySplit text with
      | p0 :: p1 :: rest =>
        if pyLower p0 == "in" && pyLower p1 == "education" then
          let remaining := pyStrip (joinSpace rest)
          if remaining ≠ "" then some (remaining ++ " in Education") else some text
        else some text
      | _ => some text
    else some text
  else none

/-- First reorder-pattern hit over the position-sorted first-page
candidates. -/
def scanReorder : List HeadingCandidate → Option String
  | [] => none
  | c :: rest =>
    let text := pyStrip c.text
    match reorderPattern1 text with
    | some r => some r
    | none =>
      match reorderPattern2 text with
      | some r => some r
      | none => scanReorder rest

/-- The title keywords counted by `_reconstruct_fragmented_title`. -/
def titleKeywords : List String :=
  ["role", "renewable", "energy", "combating", "climate", "change"]

/-- First candidate containing at least three title keywords with length
above 20. -/
def scanKeywordTitle : List HeadingCandidate → Option String
  | [] => none
  | c :: rest =>
    let tl := pyLower c.text
    if 3 ≤ (titleKeywords.filter (fun k => pyContains tl k)).length ∧ 20 < c.text.length
    then some (pyStrip c.text)
    else scanKeywordTitle rest

/-- Adjacent-pair scan of `_reconstruct_fragmented_title`. -/
def scanPairs : List HeadingCandidate → Option String
  | c1 :: c2 :: rest =>
    if couldBeTitleFragments c1 c2 then
      match mergeTitleFragments c1 c2 with
      | some m => if isLikelyCompleteTitle m then some m else scanPairs (c2 :: rest)
      | none => scanPairs (c2 :: rest)
    else scanPairs (c2 :: rest)
  | _ => none

/-- Adjacent-triple scan of `_reconstruct_fragmented_title`. -/
def scanTriples : List HeadingCandidate → Option String
  | c1 :: c2 :: c3 :: rest =>
    if couldBeTitleFragments c1 c2 && couldBeTitleFragments c2 c3 then
      match mergeThreeTitleFragments c1 c2 c3 with
      | some m => if isLikelyCompleteTitle m then some m else scanTriples (c2 :: c3 :: rest)
      | none => scanTriples (c2 :: c3 :: rest)
    else scanTriples (c2 :: c3 :: rest)
  | _ => none

/-- `TitleDetector._reconstruct_fragmented_title` (the unused
`text_blocks` parameter is kept to mirror the signature). -/
def reconstructFragmentedTitle (hcs : List HeadingCandidate) (_blocks : List TextBlock) :
    Option String :=
  if hcs.isEmpty then none
  else
    let firstPage := hcs.filter (fun c => c.textBlock.pageNumber == 0)
    if firstPage.length < 2 then none
    else
      let sorted := sortBy (fun a b => decide (b.textBlock.position.y1 < a.textBlock.position.y1))
        firstPage
      match scanReorder sorted with
      | some r => some r
      | none =>
        match scanKeywordTitle sorted with
        | some r => some r
        | none =>
          match scanPairs sorted with
          | some r => some r
          | none => scanTriples sorted

/-- Keep-first deduplication by candidate text
(`if text not in seen: ...`). -/
def dedupByText (l : List (String × ℚ)) : List (String × ℚ) :=
  l.foldl (fun (acc : List (String × ℚ)) p =>
    if acc.any (fun q => q.1 == p.1) then acc else acc ++ [p]) []

/-- The candidate-reconciliation tail of `TitleDetector.detect_title`
(lines 57–88): keep-first dedup by exact text, stable sort by score
descending, the consensus check on the top 3, the confidence-threshold
rule, the 1.5× dominance rule, and the fallback. -/
def reconcileTitle (allCands : List (String × ℚ)) (fallbackTitle : String) : String :=
  let sorted := sortBy (fun a b => decide (b.2 < a.2)) (dedupByText allCands)
  let consensus : Bool :=
    match sorted with
    | t0 :: _ :: _ =>
      decide (t0.2 < titleConsensusThreshold) && (sorted.take 3).all (fun c => c.1 == t0.1)
    | _ => false
  if consensus then
    match sorted with
    | t0 :: _ => validateTitle t0.1
    | [] => validateTitle fallbackTitle
  else
    match sorted with
    | t0 :: rest =>
      if t0.2 ≥ titleConfidenceThreshold then validateTitle t0.1
      else
        match rest with
        | t1 :: _ =>
          if t0.2 > t1.2 * (3 / 2) then validateTitle t0.1 else validateTitle fallbackTitle
        | [] => validateTitle fallbackTitle
    | [] => validateTitle fallbackTitle

/-- `TitleDetector.detect_title`. -/
def detectTitle (blocks : List TextBlock) (hcs : List HeadingCandidate) : String :=
  if blocks.isEmpty then "Untitled Document"
  else
    match reconstructFragmentedTitle hcs blocks with
    | some r => validateTitle r
    | none =>
      let fromH := if hcs.isEmpty then [] else titleCandsFromHeadings hcs
      let fb := getFallbackTitle blocks
      reconcileTitle
        (fromH ++ titleCandsFromFontAnalysis blocks ++ titleCandsFromPlacement blocks ++
          [(fb, 2 / 10)]) fb

/-! ## TOC extractor (src/src/services/toc_extractor.py)

The two regexes are `^((?:[0-9]+[.])+\s*)?(.+?)\.{3,}\s*(\d+)$` and
`^(.+?)\.{3,}\s*(\d+)$`, implemented with the engine's backtracking
preference order: more numbering repetitions first, longer `\s*` first,
and the shortest lazy `(.+?)` first.  The source constructs
`HeadingCandidate(text_block=..., level=..., page=...)`, but the
`HeadingCandidate` dataclass has no `level`/`page` parameters and requires
`confidence_score`/`classification_factors`, so the first successful parse
raises `TypeError`; this is modelled with `Except`. -/

/-- Numeric value of a digit run. -/
def natOfDigits (l : List Char) : Nat :=
  l.foldl (fun n c => n * 10 + (c.toNat - 48)) 0

/-- Match `\.{3,}\s*(\d+)$` against a remainder (the dot run is forced to
be maximal since neither `\s` nor `\d` matches a dot). -/
def suffixCheck (t : List Char) : Option Nat :=
  let dots := t.takeWhile (fun c => c == '.')
  if dots.length < 3 then none
  else
    let r := (t.dropWhile (fun c => c == '.')).dropWhile pyIsSpace
    let ds := r.takeWhile isAsciiDigit
    if !ds.isEmpty && (r.dropWhile isAsciiDigit).isEmpty then some (natOfDigits ds)
    else none

/-- Lazy `(.+?)` scan: the shortest nonempty prefix (not crossing a
newline, which `.` does not match) whose remainder satisfies
`suffixCheck`.  `acc` holds the prefix so far, reversed. -/
def lazySplitGo : List Char → List Char → Option (List Char × Nat)
  | _, [] => none
  | acc, c :: t =>
    if c == '\n' then none
    else
      match suffixCheck t with
      | some p => some ((c :: acc).reverse, p)
      | none => lazySplitGo (c :: acc) t

/-- Parse the greedy repetitions of `(?:[0-9]+[.])+`, returning after each
repetition the text consumed so far and the remainder (fueled; each
repetition consumes at least two characters). -/
def parseRepsGo : Nat → List Char → List Char → List (List Char × List Char)
  | 0, _, _ => []
  | fuel + 1, consumed, l =>
    let ds := l.takeWhile isAsciiDigit
    if ds.isEmpty then []
    else
      match l.dropWhile isAsciiDigit with
      | '.' :: r =>
        (consumed ++ ds ++ ['.'], r) :: parseRepsGo fuel (consumed ++ ds ++ ['.']) r
      | _ => []

/-- All prefixes of the numbering group, shortest first. -/
def parseReps (l : List Char) : List (List Char × List Char) :=
  parseRepsGo l.length [] l

/-- Backtrack over the length of the `\s*` that closes the numbering
group, longest first. -/
def tryWsGo (consumedRep rest : List Char) : Nat → Option (String × String × Nat)
  | 0 =>
    match lazySplitGo [] rest with
    | some (g2, p) => some (⟨consumedRep⟩, ⟨g2⟩, p)
    | none => none
  | k + 1 =>
    match lazySplitGo [] (rest.drop (k + 1)) with
    | some (g2, p) => some (⟨consumedRep ++ rest.take (k + 1)⟩, ⟨g2⟩, p)
    | none => tryWsGo consumedRep rest k

/-- Backtrack over the numbering repetitions, most repetitions first. -/
def tryReps : List (List Char × List Char) → Option (String × String × Nat)
  | [] => none
  | (consumed, rest) :: more =>
    match tryWsGo consumed rest (rest.takeWhile pyIsSpace).length with
    | some r => some r
    | none => tryReps more

/-- Full match of `^((?:[0-9]+[.])+\s*)?(.+?)\.{3,}\s*(\d+)$`: the groups
`(numbering?, heading text, page)`. -/
def matchTocNumbered (s : String) : Option (Option String × String × Nat) :=
  let l := s.toList
  match tryReps (parseReps l).reverse with
  | some (g1, g2, p) => some (some g1, g2, p)
  | none =>
    match lazySplitGo [] l with
    | some (g2, p) => some (none, ⟨g2⟩, p)
    | none => none

/-- `TOCExtractor.detect_level`. -/
def detectLevel (numpart : Option String) : String :=
  match numpart with
  | none => "H1"
  | some s =>
    if 1 < pyCountChar s '.' then "H2"
    else if pyCountChar s '.' = 1 then "H2"
    else "H1"

/-- `TOCExtractor.extract_toc_headings`: locate the table-of-contents
marker, scan its page and the next, and crash with `TypeError` on the
first dot-leader line (the `HeadingCandidate` construction uses parameters
the dataclass does not have); with no marker or no matching line the
result is `None`. -/
def extractTocHeadings (blocks : List TextBlock) :
    Except String (Option (List HeadingCandidate)) :=
  match blocks.find? (fun b => pyContains (pyLower (pyStrip b.text)) "table of contents") with
  | none => Except.ok none
  | some tocBlock =>
    let tocPage := tocBlock.pageNumber
    let relevant := blocks.filter (fun b =>
      b.pageNumber == tocPage || b.pageNumber == tocPage + 1)
    match relevant.find? (fun b =>
        (matchTocNumbered (pyStrip b.text)).isSome ||
          (lazySplitGo [] (pyStrip b.text).toList).isSome) with
    | some _ =>
      Except.error
        "TypeError: HeadingCandidate.__init__ has no parameters level/page and requires confidence_score, classification_factors"
    | none => Except.ok none

/-! ## Spec-side predicates (stated from the specification's words, for
comparison with the source-derived definitions) -/

/-- The level-monotonicity predicate claimed for the assembler's output:
walking the entries with `seen_h1`/`seen_h2` flags, no `H2` may occur
before the first `H1` and no `H3` before the first `H2`. -/
def levelMonotoneGo : List OutlineEntry → Bool → Bool → Bool
  | [], _, _ => true
  | e :: rest, seen1, seen2 =>
    match e.level with
    | HLevel.H1 => levelMonotoneGo rest true seen2
    | HLevel.H2 => seen1 && levelMonotoneGo rest seen1 true
    | HLevel.H3 => seen2 && levelMonotoneGo rest seen1 seen2

/-- Level monotonicity of an entry sequence (spec-side). -/
def levelMonotone (entries : List OutlineEntry) : Bool :=
  levelMonotoneGo entries false false

/-- Case- and whitespace-insensitive equality as the specification words
it: equality after collapsing every whitespace run to a single space,
trimming, and lowercasing (spec-side). -/
def specWsInsensitiveEq (a b : String) : Bool :=
  pyLower (pyStrip ⟨collapseAllWs a.toList⟩) == pyLower (pyStrip ⟨collapseAllWs b.toList⟩)

/-! ## Pipeline composition (src/main.py, `monitored_processing`, steps
2–4): classification, then title detection, then outline building.  The
TOC extractor is not part of this composition — `main.py` never invokes
it. -/

/-- The per-document core pipeline of `process_single_file`. -/
def runPipeline (blocks : List TextBlock) : DocumentOutline :=
  let hcs := classifyTextBlocks blocks
  buildOutline hcs (detectTitle blocks hcs)

/-! ## Concrete fixtures used by the witnesses and counterexamples -/

/-- A normal-weight font of the given size, family `"f"`. -/
def fontF (size : ℚ) : FontMetadata := ⟨size, "f", "normal", "normal", 0⟩

/-- A bounding box with derived width/height. -/
def posBox (x0 y0 x1 y1 : ℚ) : PositionInfo := ⟨x0, y0, x1, y1, x1 - x0, y1 - y0⟩

/-- No styling flags. -/
def noStyle : StyleInfo := ⟨false, false, false⟩

/-- Placeholder factors (irrelevant to the outline builder, which never
reads them). -/
def zeroFactors : ClassificationFactors := ⟨0, 0, 0, 0, 0, 0, 0, 0⟩

/-- An H1 candidate near the top of page 0. -/
def candTop : HeadingCandidate :=
  ⟨mkTextBlock "Top Heading" 0 (fontF 12) (posBox 50 690 200 700) noStyle,
   8 / 10, zeroFactors, CandLevel.H1⟩

/-- An H1 candidate lower on page 0. -/
def candBottom : HeadingCandidate :=
  ⟨mkTextBlock "Bottom Heading" 0 (fontF 12) (posBox 50 590 200 600) noStyle,
   7 / 10, zeroFactors, CandLevel.H1⟩

/-- An H2 candidate with no preceding H1. -/
def candH2 : HeadingCandidate :=
  ⟨mkTextBlock "Section Two" 0 (fontF 12) (posBox 50 690 200 700) noStyle,
   8 / 10, zeroFactors, CandLevel.H2⟩

/-- A candidate whose text differs from the document title only by inner
whitespace. -/
def candWsTitle : HeadingCandidate :=
  ⟨mkTextBlock "My  Nice  Title" 0 (fontF 12) (posBox 50 690 200 700) noStyle,
   8 / 10, zeroFactors, CandLevel.H1⟩

/-- Fragment `"X"`, box x ∈ [0, 5]. -/
def candX : HeadingCandidate :=
  ⟨mkTextBlock "X" 0 (fontF 12) (posBox 0 0 5 10) noStyle, 1 / 2, zeroFactors, CandLevel.H1⟩

/-- Fragment `"Y"`, box x ∈ [10, 15] (5 units right of `candX`). -/
def candY : HeadingCandidate :=
  ⟨mkTextBlock "Y" 0 (fontF 12) (posBox 10 0 15 10) noStyle, 1 / 2, zeroFactors, CandLevel.H1⟩

/-- Fragment `"Z"`, box x ∈ [60, 65], font size 12.5 (within the 1pt
cross-position tolerance of 12 but outside the 0.1pt same-line
tolerance). -/
def candZ : HeadingCandidate :=
  ⟨mkTextBlock "Z" 0 (fontF (25 / 2)) (posBox 60 0 65 10) noStyle,
   1 / 2, zeroFactors, CandLevel.H1⟩

/-- A block carrying the table-of-contents marker on page 1. -/
def blockTocMarker : TextBlock :=
  mkTextBlock "Table of Contents" 1 (fontF 12) (posBox 50 700 200 712) noStyle

/-- A numbered dot-leader TOC line on page 2. -/
def blockTocLine : TextBlock :=
  mkTextBlock "1. Introduction .......... 4" 2 (fontF 11) (posBox 50 650 300 661) noStyle

/-- The `"Revision History ........... 3"` scenario line on page 2. -/
def blockRevHist : TextBlock :=
  mkTextBlock "Revision History ........... 3" 2 (fontF 11) (posBox 50 650 300 661) noStyle

/-- A document containing a TOC marker and a numbered dot-leader line. -/
def c3Blocks : List TextBlock := [blockTocMarker, blockTocLine]

/-- The scenario document of the `"Revision History"` claim. -/
def c6Blocks : List TextBlock := [blockTocMarker, blockRevHist]

/-- A two-character block (shorter than `min_heading_length`). -/
def blockHi : TextBlock := mkTextBlock "Hi" 0 (fontF 12) (posBox 0 0 10 10) noStyle

/-- A one-character block (the length sub-score maximum). -/
def blockA : TextBlock := mkTextBlock "A" 0 (fontF 12) (posBox 0 0 10 10) noStyle

/-! ## Generic lemmas about the embedded building blocks -/

/-- Membership through the stable insertion. -/
theorem mem_insBy {α : Type} (lt : α → α → Bool) (x a : α) (l : List α) :
    a ∈ insBy lt x l ↔ a = x ∨ a ∈ l := by
  induction l with
  | nil => simp [insBy]
  | cons y ys ih =>
    simp only [insBy]
    split
    · simp [List.mem_cons]
    · simp [List.mem_cons, ih]
      tauto

/-- The stable insertion is a permutation of consing. -/
theorem insBy_perm {α : Type} (lt : α → α → Bool) (x : α) (l : List α) :
    List.Perm (insBy lt x l) (x :: l) := by
  induction l with
  | nil => exact List.Perm.refl _
  | cons y ys ih =>
    simp only [insBy]
    split
    · exact List.Perm.refl _
    · exact (ih.cons y).trans (List.Perm.swap x y ys)

/-- The stable sort permutes its input. -/
theorem sortBy_perm {α : Type} (lt : α → α → Bool) (l : List α) :
    List.Perm (sortBy lt l) l := by
  have aux : ∀ (l acc : List α),
      List.Perm (List.foldl (fun acc x => insBy lt x acc) acc l) (acc ++ l) := by
    intro l
    induction l with
    | nil => intro acc; simp
    | cons x t ih =>
      intro acc
      have h1 := ih (insBy lt x acc)
      have h2 := (insBy_perm lt x acc).append_right t
      have h3 : List.Perm ((x :: acc) ++ t) (acc ++ x :: t) := (List.perm_middle).symm
      exact (h1.trans h2).trans h3
  simpa using aux l []

/-- Membership through the stable sort. -/
theorem mem_sortBy {α : Type} (lt : α → α → Bool) (a : α) (l : List α) :
    a ∈ sortBy lt l ↔ a ∈ l :=
  (sortBy_perm lt l).mem_iff

/-- The stable sort preserves length. -/
theorem length_sortBy {α : Type} (lt : α → α → Bool) (l : List α) :
    (sortBy lt l).length = l.length :=
  (sortBy_perm lt l).length_eq

/-- Each greedy merge scan never increases the number of candidates. -/
theorem mergeScan_length (pred : HeadingCandidate → HeadingCandidate → Bool)
    (mg : List HeadingCandidate → HeadingCandidate) (l : List HeadingCandidate) :
    (mergeScan pred mg l).length ≤ l.length := by
  have aux : ∀ (n : Nat) (l : List HeadingCandidate), l.length ≤ n →
      (mergeScan pred mg l).length ≤ l.length := by
    intro n
    induction n with
    | zero =>
      intro l hl
      have hnil : l = [] := List.eq_nil_of_length_eq_zero (Nat.le_zero.mp hl)
      subst hnil
      simp [mergeScan]
    | succ n ih =>
      intro l hl
      match l with
      | [] => simp [mergeScan]
      | c :: rest =>
        rw [mergeScan]
        have hdrop : (rest.dropWhile (pred c)).length ≤ rest.length :=
          (List.dropWhile_suffix (pred c)).sublist.length_le
        have hrec := ih (rest.dropWhile (pred c))
          (le_trans hdrop (Nat.succ_le_succ_iff.mp hl))
        simp only [List.length_cons]
        omega
  exact aux l.length l le_rfl

/-- Minimum folds are bounded by their initial value. -/
theorem foldl_min_le_init (l : List ℚ) (a : ℚ) : l.foldl min a ≤ a := by
  induction l generalizing a with
  | nil => exact le_refl a
  | cons x t ih => exact le_trans (ih (min a x)) (min_le_left a x)

/-- Minimum folds are lower bounds of every member. -/
theorem foldl_min_le_mem (l : List ℚ) (a x : ℚ) (hx : x ∈ l) : l.foldl min a ≤ x := by
  induction l generalizing a with
  | nil => cases hx
  | cons y t ih =>
    rcases List.mem_cons.mp hx with h | h
    · subst h
      exact le_trans (foldl_min_le_init t (min a x)) (min_le_right a x)
    · exact ih (min a y) h

/-- `qMin` is a lower bound of every member. -/
theorem qMin_le (l : List ℚ) (x : ℚ) (hx : x ∈ l) : qMin l ≤ x := by
  match l with
  | [] => cases hx
  | y :: t =>
    rcases List.mem_cons.mp hx with h | h
    · subst h
      exact foldl_min_le_init t x
    · exact foldl_min_le_mem t y x h

/-- Maximum folds dominate their initial value. -/
theorem init_le_foldl_max (l : List ℚ) (a : ℚ) : a ≤ l.foldl max a := by
  induction l generalizing a with
  | nil => exact le_refl a
  | cons x t ih => exact le_trans (le_max_left a x) (ih (max a x))

/-- Maximum folds dominate every member. -/
theorem mem_le_foldl_max (l : List ℚ) (a x : ℚ) (hx : x ∈ l) : x ≤ l.foldl max a := by
  induction l generalizing a with
  | nil => cases hx
  | cons y t ih =>
    rcases List.mem_cons.mp hx with h | h
    · subst h
      exact le_trans (le_max_right a x) (init_le_foldl_max t (max a x))
    · exact ih (max a y) h

/-- `qMax` dominates every member. -/
theorem le_qMax (l : List ℚ) (x : ℚ) (hx : x ∈ l) : x ≤ qMax l := by
  match l with
  | [] => cases hx
  | y :: t =>
    rcases List.mem_cons.mp hx with h | h
    · subst h
      exact init_le_foldl_max t x
    · exact mem_le_foldl_max t y x h

/-! ## String-primitive lemmas -/

/-- `Char.ofNat` round-trips on valid (sub-surrogate) code points. -/
theorem toNat_ofNat_valid (n : Nat) (h : n < 55296) : (Char.ofNat n).toNat = n := by
  have hv : Nat.isValidChar n := Or.inl h
  unfold Char.ofNat
  rw [dif_pos hv]
  simp [Char.ofNatAux, Char.toNat, UInt32.toNat]

/-- Lower-casing does not create or destroy whitespace. -/
theorem pyIsSpace_pyLowerChar (c : Char) : pyIsSpace (pyLowerChar c) = pyIsSpace c := by
  have hfalse : ∀ m : Nat, 65 ≤ m →
      (m == 32 || m == 9 || m == 10 || m == 13 || m == 11 || m == 12) = false := by
    intro m hm
    simp only [Bool.or_eq_false_iff, beq_eq_false_iff_ne, ne_eq]
    omega
  unfold pyLowerChar
  split
  case isTrue h =>
    unfold isAsciiUpper at h
    simp only [Bool.and_eq_true, decide_eq_true_eq] at h
    have ht : (Char.ofNat (c.toNat + 32)).toNat = c.toNat + 32 :=
      toNat_ofNat_valid _ (by omega)
    unfold pyIsSpace
    rw [ht, hfalse _ (by omega), hfalse _ (by omega)]
  case isFalse h => rfl

/-- Stripping commutes with mapping a whitespace-preserving character
function. -/
theorem stripList_map (f : Char → Char) (p : Char → Bool) (hp : ∀ c, p (f c) = p c)
    (l : List Char) : stripList p (l.map f) = (stripList p l).map f := by
  have hcomp : p ∘ f = p := funext hp
  unfold stripList
  rw [List.dropWhile_map, hcomp, ← List.map_reverse, List.dropWhile_map, hcomp,
    ← List.map_reverse]

/-- `lower` and `strip` commute. -/
theorem pyLower_pyStrip (s : String) : pyLower (pyStrip s) = pyStrip (pyLower s) := by
  have h := stripList_map pyLowerChar pyIsSpace pyIsSpace_pyLowerChar s.toList
  exact congrArg String.mk h.symm

/-- `dropWhile` is idempotent. -/
theorem dropWhile_dropWhile (p : Char → Bool) (l : List Char) :
    (l.dropWhile p).dropWhile p = l.dropWhile p := by
  have h := List.head?_dropWhile_not p l
  cases hl : l.dropWhile p with
  | nil => rfl
  | cons a t =>
    rw [hl] at h
    simp only [List.head?_cons] at h
    simp [List.dropWhile_cons, h]

/-- A list is unchanged by `dropWhile` when its head fails `p`. -/
theorem dropWhile_eq_self_of_head (p : Char → Bool) (l : List Char)
    (h : ∀ x, l.head? = some x → p x = false) : l.dropWhile p = l := by
  cases l with
  | nil => rfl
  | cons x t =>
    have := h x rfl
    simp [List.dropWhile_cons, this]

/-- Stripping is idempotent. -/
theorem stripList_idem (p : Char → Bool) (l : List Char) :
    stripList p (stripList p l) = stripList p l := by
  set a := l.dropWhile p with ha
  set b := a.reverse.dropWhile p with hb
  have hb2 : b.dropWhile p = b := by
    rw [hb]
    exact dropWhile_dropWhile p a.reverse
  have hb1 : b.reverse.dropWhile p = b.reverse := by
    apply dropWhile_eq_self_of_head
    intro x hx
    have hsuf : b <:+ a.reverse := by rw [hb]; exact List.dropWhile_suffix p
    obtain ⟨t, ht⟩ := hsuf
    have hpre : b.reverse ++ t.reverse = a := by
      have := congrArg List.reverse ht
      simpa using this
    have hax : a.head? = some x := by
      rw [← hpre]
      cases hbv : b.reverse with
      | nil => rw [hbv] at hx; cases hx
      | cons y ys =>
        rw [hbv] at hx
        simp only [List.head?_cons, Option.some.injEq] at hx
        simp [hx]
    have hmatch := List.head?_dropWhile_not p l
    rw [← ha, hax] at hmatch
    exact hmatch
  show ((b.reverse.dropWhile p).reverse.dropWhile p).reverse = b.reverse
  rw [hb1, List.reverse_reverse, hb2]

/-- String-level idempotence of `strip`. -/
theorem pyStrip_idem (s : String) : pyStrip (pyStrip s) = pyStrip s :=
  congrArg String.mk (stripList_idem pyIsSpace s.toList)

/-- `lower` preserves emptiness. -/
theorem pyLower_eq_empty_iff (s : String) : pyLower s = "" ↔ s = "" := by
  cases s with
  | mk data =>
    unfold pyLower
    constructor
    · intro h
      have hd : data.map pyLowerChar = [] := congrArg String.data h
      have hdata : data = [] := List.map_eq_nil_iff.mp hd
      rw [hdata]
    · intro h
      rw [h]
      rfl

/-- A fully whitespace list strips to nothing. -/
theorem stripList_nil_of_all (p : Char → Bool) (l : List Char) (h : ∀ x ∈ l, p x = true) :
    stripList p l = [] := by
  have hd : l.dropWhile p = [] :=
    List.dropWhile_eq_nil_iff.mpr (by intro x hx; simpa using h x hx)
  unfold stripList
  rw [hd]
  rfl

/-- Conversely, a list that strips to nothing is fully whitespace. -/
theorem all_of_stripList_nil (p : Char → Bool) (l : List Char) (h : stripList p l = []) :
    ∀ x ∈ l, p x = true := by
  intro x hx
  unfold stripList at h
  rw [List.reverse_eq_nil_iff, List.dropWhile_eq_nil_iff] at h
  have hdrop : ∀ y ∈ l.dropWhile p, p y = true := by
    intro y hy
    exact by simpa using h y (by simpa using hy)
  have hsplit := List.takeWhile_append_dropWhile p (l := l)
  rw [← hsplit] at hx
  rcases List.mem_append.mp hx with htk | hdr
  · exact by simpa using List.mem_takeWhile_imp htk
  · exact hdrop x hdr

/-- A whitespace-only text cleans to the empty string. -/
theorem cleanExtractedText_of_strip_empty (t : String) (h : pyStrip t = "") :
    cleanExtractedText t = "" := by
  by_cases ht : t = ""
  · rw [ht]; rfl
  · have hall : ∀ x ∈ t.toList, pyIsSpace x = true :=
      all_of_stripList_nil pyIsSpace t.toList (congrArg String.data h)
    have hnorm : normalizeTextPy t = "" := by
      unfold normalizeTextPy
      rw [if_neg ht]
      have : ∀ x ∈ t.toList.filter
          (fun c => !isCc c || c == '\n' || c == '\r' || c == '\t'), pyIsSpace x = true := by
        intro x hx
        exact hall x (List.mem_of_mem_filter hx)
      exact congrArg String.mk (stripList_nil_of_all pyIsSpace _ this)
    unfold cleanExtractedText
    rw [if_neg ht, hnorm]
    rfl

/-! ## Structure of `build_outline` -/

/-- The entries of a built outline are exactly the successful step images
of input candidates. -/
theorem mem_buildOutline (hs : List HeadingCandidate) (title : String) (e : OutlineEntry) :
    e ∈ (buildOutline hs title).outline ↔
      ∃ c, c ∈ hs ∧ buildOutlineStep title c = some e := by
  unfold buildOutline
  split
  next h =>
    have hnil : hs = [] := List.isEmpty_iff.mp h
    subst hnil
    simp [mkDocumentOutline, sortBy]
  next h =>
    simp only [mkDocumentOutline]
    rw [mem_sortBy, List.mem_reverse, List.mem_filterMap]
    constructor
    · rintro ⟨a, ha, hstep⟩
      exact ⟨a, (mem_sortBy _ _ _).mp ha, hstep⟩
    · rintro ⟨a, ha, hstep⟩
      exact ⟨a, (mem_sortBy _ _ _).mpr ha, hstep⟩

/-- Anatomy of a successful `build_outline` step: the candidate passed the
title-duplicate and `Body` filters, cleaned to a nonempty text, and its
suggested level, stripped text, page and confidence are carried into the
entry verbatim. -/
theorem buildOutlineStep_some (title : String) (c : HeadingCandidate) (e : OutlineEntry)
    (h : buildOutlineStep title c = some e) :
    isTitleDuplicate c.text title = false ∧
      c.suggestedLevel.toHLevel? = some e.level ∧
      e.text = pyStrip c.text ∧ e.page = c.page ∧
      e.confidenceScore = c.confidenceScore ∧
      cleanExtractedText c.text ≠ "" := by
  unfold buildOutlineStep at h
  split at h
  next hcond => cases h
  next hcond =>
    simp only [] at h
    split at h
    next hclean => cases h
    next hclean =>
      split at h
      case h_1 hl heq =>
        have he : mkOutlineEntry hl c.text c.page c.confidenceScore = e :=
          Option.some.inj h
        subst he
        refine ⟨?_, ?_, rfl, rfl, rfl, ?_⟩
        · simp only [Bool.or_eq_true, not_or] at hcond
          exact Bool.eq_false_iff.mpr hcond.1
        · rw [heq]; rfl
        · intro hzero
          apply hclean
          simp [hzero]
      case h_2 => cases h

/-- What `_is_title_duplicate` returning `False` guarantees when both
strings are nonempty: no exact lowered match, no high word overlap for
long headings, and no hard-coded phrase hit. -/
theorem isTitleDuplicate_false_anatomy (ht title : String)
    (hct : ht ≠ "") (htt : title ≠ "") (h : isTitleDuplicate ht title = false) :
    pyStrip (pyLower ht) ≠ pyStrip (pyLower title) ∧
      ¬(4 < ((pySplit (pyStrip (pyLower ht))).dedup).length ∧
        (8 : ℚ) / 10 <
          ((((pySplit (pyStrip (pyLower ht))).dedup.filter
              (fun w => ((pySplit (pyStrip (pyLower title))).dedup).contains w)).length : ℚ) /
            (((pySplit (pyStrip (pyLower ht))).dedup).length : ℚ))) ∧
      titleFragments.contains (pyStrip (pyLower ht)) = false := by
  unfold isTitleDuplicate at h
  split at h
  next h0 =>
    exfalso
    simp only [Bool.or_eq_true, decide_eq_true_eq] at h0
    rcases h0 with h0 | h0
    · exact hct h0
    · exact htt h0
  next h0 =>
    simp only [] at h
    split at h
    next heq => cases h
    next hneq =>
      split at h
      next hov => cases h
      next hov =>
        refine ⟨hneq, ?_, h⟩
        intro hcontra
        apply hov
        simp only [Bool.and_eq_true, decide_eq_true_eq, gt_iff_lt]
        exact ⟨⟨by omega, hcontra.2⟩, hcontra.1⟩

/-! ## Claim C1 -/

/-- C1 (counterexample): the claim "no H2 appears before the first H1 …;
an H2 encountered before any H1 is promoted to H1" is false on the code:
a lone H2 candidate is emitted as H2 with no preceding H1, violating the
claimed level monotonicity of `build_outline`'s output. -/
theorem c1_counterexample :
    levelMonotone (buildOutline [candH2] "Doc Title").outline = false := by
  with_unfolding_all rfl

/-- C1 (amended): `HierarchyBuilder.build_outline` performs no level
promotion at all — every emitted entry carries the suggested level of an
input candidate verbatim (together with its stripped text and page);
there is no `seen_h1`/`seen_h2` state machine, so an H2 (or H3) may
appear before any H1. -/
theorem buildOutline_no_promotion (hs : List HeadingCandidate) (title : String)
    (e : OutlineEntry) (he : e ∈ (buildOutline hs title).outline) :
    ∃ c, c ∈ hs ∧ c.suggestedLevel.toHLevel? = some e.level ∧
      e.text = pyStrip c.text ∧ e.page = c.page := by
  obtain ⟨c, hc, hstep⟩ := (mem_buildOutline hs title e).mp he
  obtain ⟨_, hlv, htx, hpg, _, _⟩ := buildOutlineStep_some title c e hstep
  exact ⟨c, hc, hlv, htx, hpg⟩

/-- C1 witness: the no-promotion theorem applied to a concrete
one-candidate outline. -/
theorem buildOutline_no_promotion_witness :
    ∃ c, c ∈ [candTop] ∧
      c.suggestedLevel.toHLevel? =
        some (OutlineEntry.mk HLevel.H1 "Top Heading" 0 (8 / 10)).level ∧
      (OutlineEntry.mk HLevel.H1 "Top Heading" 0 (8 / 10)).text = pyStrip c.text ∧
      (OutlineEntry.mk HLevel.H1 "Top Heading" 0 (8 / 10)).page = c.page :=
  buildOutline_no_promotion [candTop] "Doc Title" ⟨HLevel.H1, "Top Heading", 0, 8 / 10⟩
    (by
      have h : (buildOutline [candTop] "Doc Title").outline =
          [⟨HLevel.H1, "Top Heading", 0, 8 / 10⟩] := by with_unfolding_all rfl
      rw [h]
      exact List.mem_singleton.mpr rfl)

/-! ## Claim C2 -/

/-- C2: `build_outline` emits two same-page headings bottom-first: the
sort puts the list in reading order, but the final `reverse` (commented
"to match document reading order") inverts the within-page order, and the
`DocumentOutline` constructor re-sorts by page only (stably), preserving
the inverted within-page order.  `candTop` sits higher on the page
(`y1 = 700 > 600`) yet is emitted second. -/
theorem buildOutline_reverses_reading_order :
    (buildOutline [candTop, candBottom] "Doc Title").outline =
      [⟨HLevel.H1, "Bottom Heading", 0, 7 / 10⟩, ⟨HLevel.H1, "Top Heading", 0, 8 / 10⟩] ∧
      candBottom.textBlock.position.y1 < candTop.textBlock.position.y1 ∧
      candBottom.textBlock.pageNumber = candTop.textBlock.pageNumber := by
  refine ⟨by with_unfolding_all rfl, ?_, rfl⟩
  show (600 : ℚ) < 700
  norm_num

/-! ## Claim C5 -/

/-- C5 (counterexample): with detected title `"My Nice Title"`, the
candidate `"My  Nice  Title"` (double inner spaces) is emitted although it
equals the title case- and whitespace-insensitively — `build_outline`
only ignores case and leading/trailing whitespace, not inner whitespace. -/
theorem c5_counterexample :
    (buildOutline [candWsTitle] "My Nice Title").outline =
      [⟨HLevel.H1, "My  Nice  Title", 0, 8 / 10⟩] ∧
      specWsInsensitiveEq "My  Nice  Title" "My Nice Title" = true := by
  constructor
  · with_unfolding_all rfl
  · with_unfolding_all rfl

/-- C5 (amended): every emitted entry differs from the detected title
after lowering and trimming leading/trailing whitespace (inner whitespace
is **not** normalized), and no emitted entry has more than 4 distinct
words with a distinct-word overlap above 80% of the title's word set. -/
theorem buildOutline_title_dedup (hs : List HeadingCandidate) (title : String)
    (e : OutlineEntry) (he : e ∈ (buildOutline hs title).outline) :
    pyStrip (pyLower e.text) ≠ pyStrip (pyLower title) ∧
      ¬(4 < ((pySplit (pyStrip (pyLower e.text))).dedup).length ∧
        (8 : ℚ) / 10 <
          ((((pySplit (pyStrip (pyLower e.text))).dedup.filter
              (fun w => ((pySplit (pyStrip (pyLower title))).dedup).contains w)).length : ℚ) /
            (((pySplit (pyStrip (pyLower e.text))).dedup).length : ℚ))) := by
  obtain ⟨c, hc, hstep⟩ := (mem_buildOutline hs title e).mp he
  obtain ⟨hdup, _, htext, _, _, hclean⟩ := buildOutlineStep_some title c e hstep
  have hct : c.text ≠ "" := by
    intro h0
    exact hclean (by rw [h0]; with_unfolding_all rfl)
  have hkey : pyStrip (pyLower e.text) = pyStrip (pyLower c.text) := by
    rw [htext, pyLower_pyStrip, pyStrip_idem]
  by_cases htt : title = ""
  · subst htt
    constructor
    · rw [hkey]
      intro h0
      have h1 : pyStrip (pyLower c.text) = "" := by rw [h0]; rfl
      have h2 : pyLower (pyStrip c.text) = "" := by rw [pyLower_pyStrip]; exact h1
      have h3 : pyStrip c.text = "" := (pyLower_eq_empty_iff _).mp h2
      exact hclean (cleanExtractedText_of_strip_empty _ h3)
    · intro hcontra
      have hnil : (pySplit (pyStrip (pyLower ""))).dedup = ([] : List String) := rfl
      rw [hnil] at hcontra
      have hfilter :
          (pySplit (pyStrip (pyLower e.text))).dedup.filter
            (fun w => ([] : List String).contains w) = [] := by
        simp
      rw [hfilter] at hcontra
      have h2 := hcontra.2
      norm_num at h2
  · obtain ⟨hne, hov, _⟩ := isTitleDuplicate_false_anatomy c.text title hct htt hdup
    constructor
    · rw [hkey]; exact hne
    · rw [hkey]; exact hov

/-- C5 witness: the amended deduplication theorem at a concrete
outline. -/
theorem buildOutline_title_dedup_witness :
    pyStrip (pyLower "Top Heading") ≠ pyStrip (pyLower "Doc Title") ∧
      ¬(4 < ((pySplit (pyStrip (pyLower "Top Heading"))).dedup).length ∧
        (8 : ℚ) / 10 <
          ((((pySplit (pyStrip (pyLower "Top Heading"))).dedup.filter
              (fun w => ((pySplit (pyStrip (pyLower "Doc Title"))).dedup).contains w)).length : ℚ) /
            (((pySplit (pyStrip (pyLower "Top Heading"))).dedup).length : ℚ))) :=
  buildOutline_title_dedup [candTop] "Doc Title" ⟨HLevel.H1, "Top Heading", 0, 8 / 10⟩
    (by
      have h : (buildOutline [candTop] "Doc Title").outline =
          [⟨HLevel.H1, "Top Heading", 0, 8 / 10⟩] := by with_unfolding_all rfl
      rw [h]
      exact List.mem_singleton.mpr rfl)

/-! ## Claim C10 -/

/-- C10: whenever the detected title is nonempty, no emitted entry's
lower-cased trimmed text equals any of the six hard-coded phrases of
`_is_title_duplicate`, regardless of the actual title. -/
theorem buildOutline_phrase_filter (hs : List HeadingCandidate) (title : String)
    (e : OutlineEntry) (htt : title ≠ "")
    (he : e ∈ (buildOutline hs title).outline) :
    titleFragments.contains (pyStrip (pyLower e.text)) = false := by
  obtain ⟨c, hc, hstep⟩ := (mem_buildOutline hs title e).mp he
  obtain ⟨hdup, _, htext, _, _, hclean⟩ := buildOutlineStep_some title c e hstep
  have hct : c.text ≠ "" := by
    intro h0
    exact hclean (by rw [h0]; with_unfolding_all rfl)
  have hkey : pyStrip (pyLower e.text) = pyStrip (pyLower c.text) := by
    rw [htext, pyLower_pyStrip, pyStrip_idem]
  obtain ⟨_, _, hfrag⟩ := isTitleDuplicate_false_anatomy c.text title hct htt hdup
  rw [hkey]
  exact hfrag

/-- C10 witness: the phrase-filter theorem at a concrete outline. -/
theorem buildOutline_phrase_filter_witness :
    titleFragments.contains (pyStrip (pyLower "Top Heading")) = false :=
  buildOutline_phrase_filter [candTop] "Doc Title" ⟨HLevel.H1, "Top Heading", 0, 8 / 10⟩
    (by decide)
    (by
      have h : (buildOutline [candTop] "Doc Title").outline =
          [⟨HLevel.H1, "Top Heading", 0, 8 / 10⟩] := by with_unfolding_all rfl
      rw [h]
      exact List.mem_singleton.mpr rfl)

/-! ## Claim C4: score bounds -/

/-- Bounds for a value clamped above at 1. -/
theorem min_one_bounds (x lo : ℚ) (h : lo ≤ x) (hlo : lo ≤ 1) :
    lo ≤ min x 1 ∧ min x 1 ≤ 1 :=
  ⟨le_min h hlo, min_le_right x 1⟩

/-- The length-band adjustment stays within `[-3/10, 3/10]`. -/
theorem tpLengthAdj_bounds (t : String) :
    -(3 / 10 : ℚ) ≤ tpLengthAdj t ∧ tpLengthAdj t ≤ 3 / 10 := by
  unfold tpLengthAdj
  split_ifs <;> norm_num

/-- The capitalization adjustment stays within `[0, 3/10]`. -/
theorem tpCapAdj_bounds (t : String) : (0 : ℚ) ≤ tpCapAdj t ∧ tpCapAdj t ≤ 3 / 10 := by
  unfold tpCapAdj
  split_ifs <;> norm_num

/-- The punctuation adjustment stays within `[0, 2/10]`. -/
theorem tpPunctAdj_bounds (t : String) : (0 : ℚ) ≤ tpPunctAdj t ∧ tpPunctAdj t ≤ 2 / 10 := by
  unfold tpPunctAdj
  split_ifs <;> norm_num

/-- The numbering adjustment stays within `[0, 3/10]`. -/
theorem tpNumAdj_bounds (t : String) : (0 : ℚ) ≤ tpNumAdj t ∧ tpNumAdj t ≤ 3 / 10 := by
  unfold tpNumAdj
  split_ifs <;> norm_num

/-- The vocabulary adjustment stays within `[0, 2/10]`. -/
theorem tpVocabAdj_bounds (t : String) : (0 : ℚ) ≤ tpVocabAdj t ∧ tpVocabAdj t ≤ 2 / 10 := by
  unfold tpVocabAdj
  split_ifs <;> norm_num

/-- The word-count adjustment stays within `[0, 1/10]`. -/
theorem tpWordsAdj_bounds (t : String) : (0 : ℚ) ≤ tpWordsAdj t ∧ tpWordsAdj t ≤ 1 / 10 := by
  unfold tpWordsAdj
  split_ifs <;> norm_num

/-- The function-word penalty stays within `[-3/10, 0]`. -/
theorem tpArticleAdj_bounds (t : String) :
    -(3 / 10 : ℚ) ≤ tpArticleAdj t ∧ tpArticleAdj t ≤ 0 := by
  unfold tpArticleAdj
  split_ifs <;> norm_num

/-- The accumulated text-pattern score stays within `[-3/5, 1]` whenever
the short-text gate contribution lies in `[0, 1/10]`. -/
theorem textPatternMain_bounds (t : String) (score0 : ℚ)
    (h0 : 0 ≤ score0 ∧ score0 ≤ 1 / 10) :
    -(3 / 5 : ℚ) ≤ textPatternMain t score0 ∧ textPatternMain t score0 ≤ 1 := by
  unfold textPatternMain
  split_ifs
  · norm_num
  · norm_num
  · norm_num
  · have h1 := tpLengthAdj_bounds t
    have h2 := tpCapAdj_bounds t
    have h3 := tpPunctAdj_bounds t
    have h4 := tpNumAdj_bounds t
    have h5 := tpVocabAdj_bounds t
    have h6 := tpWordsAdj_bounds t
    have h7 := tpArticleAdj_bounds t
    exact min_one_bounds _ _ (by linarith [h1.1, h2.1, h3.1, h4.1, h5.1, h6.1, h7.1, h0.1])
      (by norm_num)

/-- The full text-pattern sub-score stays within `[-3/5, 1]`. -/
theorem calculateTextPatternScore_bounds (block : TextBlock) :
    -(3 / 5 : ℚ) ≤ calculateTextPatternScore block ∧ calculateTextPatternScore block ≤ 1 := by
  unfold calculateTextPatternScore
  simp only []
  split_ifs
  · norm_num
  · norm_num
  · exact textPatternMain_bounds _ _ (by norm_num)
  · exact textPatternMain_bounds _ _ (by norm_num)
  · norm_num
  · exact textPatternMain_bounds _ _ (by norm_num)

/-- The length sub-score stays within `[0, 199/150]` (it exceeds 1 for
nonempty text shorter than `min_heading_length`). -/
theorem calculateLengthScore_bounds (block : TextBlock) :
    (0 : ℚ) ≤ calculateLengthScore block ∧ calculateLengthScore block ≤ 199 / 150 := by
  unfold calculateLengthScore
  simp only []
  split_ifs with h1 h2 h3
  · norm_num
  · norm_num
  · constructor
    · exact le_max_left 0 _
    · apply max_le (by norm_num)
      have hn : 1 ≤ (pyStrip block.text).length := Nat.one_le_iff_ne_zero.mpr h1
      have hq : (1 : ℚ) ≤ ((pyStrip block.text).length : ℚ) := by exact_mod_cast hn
      rw [show ((maxHeadingLength : ℚ) = 200) from by norm_num [maxHeadingLength]]
      linarith
  · norm_num

/-- The font sub-score stays within `[0, 1]` for a block of the analyzed
population. -/
theorem calculateFontScore_bounds (blocks : List TextBlock) (block : TextBlock)
    (hm : block ∈ blocks) :
    (0 : ℚ) ≤ calculateFontScore block (analyzeFontRelationships blocks) ∧
      calculateFontScore block (analyzeFontRelationships blocks) ≤ 1 := by
  have hminsize : (analyzeFontRelationships blocks).minSize =
      qMin (blocks.map (·.fontMetadata.size)) := by
    have hne : ¬ blocks.isEmpty = true := by
      intro hb
      rw [List.isEmpty_iff.mp hb] at hm
      cases hm
    unfold analyzeFontRelationships
    rw [if_neg hne]
  have hmin : qMin (blocks.map (·.fontMetadata.size)) ≤ block.fontMetadata.size :=
    qMin_le _ _ (List.mem_map_of_mem _ hm)
  have hs1 : 0 ≤ fsSizeAdj block (analyzeFontRelationships blocks) := by
    unfold fsSizeAdj
    split_ifs with hgt
    · have hd : (0 : ℚ) ≤
          (block.fontMetadata.size - (analyzeFontRelationships blocks).minSize) /
            ((analyzeFontRelationships blocks).maxSize -
              (analyzeFontRelationships blocks).minSize) := by
        apply div_nonneg
        · rw [hminsize]; linarith
        · linarith
      have hw : (0 : ℚ) ≤ fontSizeWeight := by norm_num [fontSizeWeight]
      exact mul_nonneg hd hw
    · exact le_refl 0
  have hs2 : 0 ≤ fsBoldAdj block := by
    unfold fsBoldAdj
    split_ifs <;> norm_num [fontWeightImportance]
  have hs3 : 0 ≤ fsRankAdj block := by
    unfold fsRankAdj
    split_ifs <;> norm_num
  have hs4 : 0 ≤ fsFamilyAdj block (analyzeFontRelationships blocks) := by
    unfold fsFamilyAdj
    split_ifs <;> norm_num
  unfold calculateFontScore
  split_ifs
  · norm_num
  · exact min_one_bounds _ _ (by linarith) (by norm_num)

/-- The position sub-score stays within `[0, 1]` for a block of the
context population. -/
theorem calculatePositionScore_bounds (blocks : List TextBlock) (fa : FontAnalysis)
    (block : TextBlock) (hm : block ∈ blocks) :
    (0 : ℚ) ≤ calculatePositionScore block (createDocumentContext blocks fa) ∧
      calculatePositionScore block (createDocumentContext blocks fa) ≤ 1 := by
  have hymin : (createDocumentContext blocks fa).yMin = qMin (blocks.map (·.position.y1)) :=
    rfl
  have hmin : qMin (blocks.map (·.position.y1)) ≤ block.position.y1 :=
    qMin_le _ _ (List.mem_map_of_mem _ hm)
  have hs1 : 0 ≤ psYAdj block (createDocumentContext blocks fa) := by
    unfold psYAdj
    split_ifs with hgt
    · have hd : (0 : ℚ) ≤
          (block.position.y1 - (createDocumentContext blocks fa).yMin) /
            ((createDocumentContext blocks fa).yMax - (createDocumentContext blocks fa).yMin) := by
        apply div_nonneg
        · rw [hymin]; linarith
        · linarith
      exact mul_nonneg hd (by norm_num)
    · exact le_refl 0
  have hs2 : 0 ≤ psLeftAdj block (createDocumentContext blocks fa) := by
    unfold psLeftAdj
    split_ifs <;> norm_num
  have hs3 : 0 ≤ psPageAdj block := by
    unfold psPageAdj
    split_ifs <;> norm_num
  unfold calculatePositionScore
  exact min_one_bounds _ _ (by linarith) (by norm_num)

/-- The whitespace sub-score stays within `[0, 1]`. -/
theorem calculateWhitespaceScore_bounds (block : TextBlock) (ctx : DocumentContext) :
    (0 : ℚ) ≤ calculateWhitespaceScore block ctx ∧ calculateWhitespaceScore block ctx ≤ 1 := by
  unfold calculateWhitespaceScore
  simp only []
  split_ifs
  · split
    · exact min_one_bounds _ _ (by norm_num) (by norm_num)
    · refine min_one_bounds _ 0 ?_ (by norm_num)
      split_ifs <;> norm_num
  · exact min_one_bounds _ _ (by norm_num) (by norm_num)

/-- C4 (counterexample): the length sub-score of the one-character block
`"A"` is `199/150 > 1`, so not every sub-score lies in `[0, 1]`. -/
theorem c4_counterexample :
    calculateLengthScore blockA = 199 / 150 ∧ ¬(calculateLengthScore blockA ≤ 1) := by
  have h : calculateLengthScore blockA = 199 / 150 := by with_unfolding_all rfl
  refine ⟨h, ?_⟩
  rw [h]
  norm_num

/-- C4 (amended): for every block of the analyzed population, the font,
position and whitespace sub-scores lie in `[0, 1]`; the text-pattern
sub-score lies in `[-3/5, 1]` (it can be negative for long prose-like
text); the length sub-score lies in `[0, 199/150]` (it exceeds 1 exactly
for nonempty text shorter than `min_heading_length`); and the combined
heading score lies in `[-3/50, 1]` (clamped above at 1, but not below). -/
theorem calculateHeadingScore_bounds (blocks : List TextBlock) (block : TextBlock)
    (hm : block ∈ blocks) :
    ((0 : ℚ) ≤ calculateFontScore block (analyzeFontRelationships blocks) ∧
      calculateFontScore block (analyzeFontRelationships blocks) ≤ 1) ∧
    ((0 : ℚ) ≤ calculatePositionScore block
        (createDocumentContext blocks (analyzeFontRelationships blocks)) ∧
      calculatePositionScore block
        (createDocumentContext blocks (analyzeFontRelationships blocks)) ≤ 1) ∧
    ((0 : ℚ) ≤ calculateWhitespaceScore block
        (createDocumentContext blocks (analyzeFontRelationships blocks)) ∧
      calculateWhitespaceScore block
        (createDocumentContext blocks (analyzeFontRelationships blocks)) ≤ 1) ∧
    (-(3 / 5 : ℚ) ≤ calculateTextPatternScore block ∧ calculateTextPatternScore block ≤ 1) ∧
    ((0 : ℚ) ≤ calculateLengthScore block ∧ calculateLengthScore block ≤ 199 / 150) ∧
    (-(3 / 50 : ℚ) ≤ calculateHeadingScore block
        (createDocumentContext blocks (analyzeFontRelationships blocks)) ∧
      calculateHeadingScore block
        (createDocumentContext blocks (analyzeFontRelationships blocks)) ≤ 1) := by
  have hf := calculateFontScore_bounds blocks block hm
  have hp := calculatePositionScore_bounds blocks (analyzeFontRelationships blocks) block hm
  have hw := calculateWhitespaceScore_bounds block
    (createDocumentContext blocks (analyzeFontRelationships blocks))
  have ht := calculateTextPatternScore_bounds block
  have hl := calculateLengthScore_bounds block
  refine ⟨hf, hp, hw, ht, hl, ?_⟩
  unfold calculateHeadingScore
  have hctxfa : (createDocumentContext blocks (analyzeFontRelationships blocks)).fontAnalysis =
      analyzeFontRelationships blocks := rfl
  rw [hctxfa]
  refine min_one_bounds _ _ ?_ (by norm_num)
  have e1 : (0 : ℚ) ≤ calculateFontScore block (analyzeFontRelationships blocks) *
      fontSizeWeight := mul_nonneg hf.1 (by norm_num [fontSizeWeight])
  have e2 : (0 : ℚ) ≤ calculatePositionScore block
      (createDocumentContext blocks (analyzeFontRelationships blocks)) * positionWeight :=
    mul_nonneg hp.1 (by norm_num [positionWeight])
  have e3 : (0 : ℚ) ≤ calculateWhitespaceScore block
      (createDocumentContext blocks (analyzeFontRelationships blocks)) * whitespaceWeight :=
    mul_nonneg hw.1 (by norm_num [whitespaceWeight])
  have e4 : -(3 / 50 : ℚ) ≤ calculateTextPatternScore block * textLengthWeight := by
    have : textLengthWeight = 1 / 10 := by norm_num [textLengthWeight]
    rw [this]
    linarith [ht.1]
  have e5 : (0 : ℚ) ≤ calculateLengthScore block * (1 / 10) :=
    mul_nonneg hl.1 (by norm_num)
  linarith

/-- C4 witness: the bound theorem instantiated at the concrete
one-character document. -/
theorem calculateHeadingScore_bounds_witness :
    ((0 : ℚ) ≤ calculateFontScore blockA (analyzeFontRelationships [blockA]) ∧
      calculateFontScore blockA (analyzeFontRelationships [blockA]) ≤ 1) ∧
    ((0 : ℚ) ≤ calculatePositionScore blockA
        (createDocumentContext [blockA] (analyzeFontRelationships [blockA])) ∧
      calculatePositionScore blockA
        (createDocumentContext [blockA] (analyzeFontRelationships [blockA])) ≤ 1) ∧
    ((0 : ℚ) ≤ calculateWhitespaceScore blockA
        (createDocumentContext [blockA] (analyzeFontRelationships [blockA])) ∧
      calculateWhitespaceScore blockA
        (createDocumentContext [blockA] (analyzeFontRelationships [blockA])) ≤ 1) ∧
    (-(3 / 5 : ℚ) ≤ calculateTextPatternScore blockA ∧ calculateTextPatternScore blockA ≤ 1) ∧
    ((0 : ℚ) ≤ calculateLengthScore blockA ∧ calculateLengthScore blockA ≤ 199 / 150) ∧
    (-(3 / 50 : ℚ) ≤ calculateHeadingScore blockA
        (createDocumentContext [blockA] (analyzeFontRelationships [blockA])) ∧
      calculateHeadingScore blockA
        (createDocumentContext [blockA] (analyzeFontRelationships [blockA])) ≤ 1) :=
  calculateHeadingScore_bounds [blockA] blockA (List.mem_singleton.mpr rfl)

/-! ## Claim C8: merge passes -/

/-- C8 (counterexample): on the three fragments `"X"`, `"Y"`, `"Z"`, the
two merge passes produce two candidates (`"XY"` and `"Z"`), but applying
them a second time merges further into one candidate (`"XY Z"`): the
union bounding box of `"XY"` brings `"Z"` within the 50-unit gap, so the
passes are not idempotent. -/
theorem c8_counterexample :
    (mergePasses [candX, candY, candZ]).length = 2 ∧
      (mergePasses (mergePasses [candX, candY, candZ])).length = 1 := by
  constructor
  · with_unfolding_all rfl
  · with_unfolding_all rfl

/-- C8 (amended): a second application of the two merge passes may
coalesce further (strictly fewer candidates), but each application never
increases the candidate count; in particular the second application's
output is no longer than the first's. -/
theorem mergePasses_length (l : List HeadingCandidate) :
    (mergePasses (mergePasses l)).length ≤ (mergePasses l).length ∧
      (mergePasses l).length ≤ l.length := by
  have h1 : ∀ m : List HeadingCandidate,
      (mergeHeadingFragments m).length ≤ m.length := by
    intro m
    unfold mergeHeadingFragments
    split_ifs
    · exact le_refl _
    · calc (mergeScan shouldMergeCandidates mergeCandidateGroup (sortBy mergeSortLt m)).length
          ≤ (sortBy mergeSortLt m).length := mergeScan_length _ _ _
        _ = m.length := length_sortBy _ _
  have h2 : ∀ m : List HeadingCandidate,
      (mergeSameLineCandidates m).length ≤ m.length := by
    intro m
    unfold mergeSameLineCandidates
    split_ifs
    · exact le_refl _
    · calc (mergeScan areSameLineCandidates mergeSameLineGroup (sortBy mergeSortLt m)).length
          ≤ (sortBy mergeSortLt m).length := mergeScan_length _ _ _
        _ = m.length := length_sortBy _ _
  have key : ∀ m : List HeadingCandidate, (mergePasses m).length ≤ m.length := by
    intro m
    exact le_trans (h2 _) (h1 m)
  exact ⟨key _, key l⟩

/-! ## Claim C9: empty input -/

/-- C9: on the empty input, heading classification returns no candidates,
title detection returns the placeholder title, and outline building
returns an empty outline — all total functions, no error path. -/
theorem empty_input_degrades :
    classifyTextBlocks [] = [] ∧
      (∀ hcs, detectTitle [] hcs = "Untitled Document") ∧
      (∀ title, (buildOutline [] title).outline = []) :=
  ⟨rfl, fun _ => rfl, fun _ => rfl⟩

/-! ## Claims C3 and C6: the TOC fast path -/

/-- C3: on a document whose blocks contain a table-of-contents marker and
a dot-leader line, `extract_toc_headings` does not return TOC-derived
headings — it raises `TypeError`, because it constructs
`HeadingCandidate(text_block=…, level=…, page=…)` while the dataclass has
no `level`/`page` parameters and requires
`confidence_score`/`classification_factors`; moreover `main.py` never
invokes the extractor, so the emitted outline is always the heuristic
one. -/
theorem extractTocHeadings_raises :
    extractTocHeadings c3Blocks = Except.error
      "TypeError: HeadingCandidate.__init__ has no parameters level/page and requires confidence_score, classification_factors" := by
  with_unfolding_all rfl

/-- C6: on the `"Revision History ........... 3"` scenario the regex does
parse heading text `"Revision History"` (group 2, stripped) with page 3
and default level H1 — but the code discards the parsed text
(`heading_txt` is never used) and the `HeadingCandidate` construction
raises `TypeError`, so no `OutlineEntry(H1, "Revision History", 3)` is
ever produced. -/
theorem revision_history_scenario :
    matchTocNumbered "Revision History ........... 3" =
        some (none, "Revision History ", 3) ∧
      pyStrip "Revision History " = "Revision History" ∧
      detectLevel none = "H1" ∧
      extractTocHeadings c6Blocks = Except.error
        "TypeError: HeadingCandidate.__init__ has no parameters level/page and requires confidence_score, classification_factors" := by
  refine ⟨?_, ?_, rfl, ?_⟩
  · with_unfolding_all rfl
  · with_unfolding_all rfl
  · with_unfolding_all rfl

/-! ## Claim C7: title reconciliation -/

/-- Keep-first deduplication leaves pairwise-distinct texts. -/
theorem dedupByText_pairwise (l : List (String × ℚ)) :
    (dedupByText l).Pairwise (fun a b => a.1 ≠ b.1) := by
  unfold dedupByText
  suffices h : ∀ (l acc : List (String × ℚ)), acc.Pairwise (fun a b => a.1 ≠ b.1) →
      (List.foldl (fun acc p => if acc.any (fun q => q.1 == p.1) then acc else acc ++ [p])
        acc l).Pairwise (fun a b => a.1 ≠ b.1) from h l [] List.Pairwise.nil
  intro l
  induction l with
  | nil => intro acc hacc; exact hacc
  | cons p t ih =>
    intro acc hacc
    simp only [List.foldl_cons]
    split
    · exact ih acc hacc
    · next hmem =>
      apply ih
      refine List.pairwise_append.mpr ⟨hacc, List.pairwise_singleton _ _, ?_⟩
      intro a ha b hb
      have hb1 : b = p := by simpa using hb
      subst hb1
      intro heq
      apply hmem
      rw [List.any_eq_true]
      exact ⟨a, ha, by simp [heq]⟩

/-- C7 (amended): after exact-text deduplication the candidate texts are
pairwise distinct, so the top-3 consensus branch can never fire when more
than one candidate exists; the top candidate (validated) is returned when
its score reaches the title-confidence threshold, and otherwise when it
exceeds the runner-up's score by a factor **strictly greater** than 1.5
(at exactly 1.5× the fallback wins instead, contrary to the claim's
"at least 1.5"). -/
theorem reconcileTitle_rules (cands : List (String × ℚ)) (fb : String) :
    (∀ (t0 : String × ℚ) (rest : List (String × ℚ)),
        sortBy (fun a b => decide (b.2 < a.2)) (dedupByText cands) = t0 :: rest →
        titleConfidenceThreshold ≤ t0.2 →
        reconcileTitle cands fb = validateTitle t0.1) ∧
      (∀ (t0 t1 : String × ℚ) (rest : List (String × ℚ)),
        sortBy (fun a b => decide (b.2 < a.2)) (dedupByText cands) = t0 :: t1 :: rest →
        t0.2 < titleConfidenceThreshold →
        t1.2 * (3 / 2) < t0.2 →
        reconcileTitle cands fb = validateTitle t0.1) := by
  constructor
  · intro t0 rest hsorted ht0
    unfold reconcileTitle
    simp only []
    rw [hsorted]
    cases rest with
    | nil =>
      rw [if_neg (by simp)]
      dsimp only
      rw [if_pos (show t0.2 ≥ titleConfidenceThreshold from ht0)]
    | cons t1 rest2 =>
      split_ifs with hcons
      · rfl
      · dsimp only
        rw [if_pos (show t0.2 ≥ titleConfidenceThreshold from ht0)]
  · intro t0 t1 rest hsorted hlt hdom
    have hpw : (sortBy (fun a b => decide (b.2 < a.2)) (dedupByText cands)).Pairwise
        (fun a b => a.1 ≠ b.1) :=
      ((sortBy_perm _ _).pairwise_iff (by intro x y h; exact h.symm)).mpr
        (dedupByText_pairwise cands)
    rw [hsorted] at hpw
    have hne : t0.1 ≠ t1.1 := (List.pairwise_cons.mp hpw).1 t1 (List.mem_cons_self t1 rest)
    unfold reconcileTitle
    simp only []
    rw [hsorted]
    have hbeq : (t1.1 == t0.1) = false := beq_eq_false_iff_ne.mpr (Ne.symm hne)
    have hall : ((t0 :: t1 :: rest).take 3).all (fun c => c.1 == t0.1) = false := by
      show (t0 :: t1 :: rest.take 1).all (fun c => c.1 == t0.1) = false
      simp only [List.all_cons]
      rw [hbeq]
      simp
    have hcons : (decide (t0.2 < titleConsensusThreshold) &&
        ((t0 :: t1 :: rest).take 3).all (fun c => c.1 == t0.1)) = false := by
      rw [hall]
      exact Bool.and_false _
    rw [if_neg (show ¬ _ = true by dsimp only; rw [hcons]; simp)]
    dsimp only
    rw [if_neg (show ¬ t0.2 ≥ titleConfidenceThreshold from not_le.mpr hlt)]
    rw [if_pos (show t0.2 > t1.2 * (3 / 2) from hdom)]

/-- C7 (counterexample): a top candidate that dominates the runner-up by
a factor of exactly 1.5 (score 3/10 versus 1/5, below the confidence
threshold) does **not** win: the fallback `"B"` is returned, not `"A"`,
refuting "by a factor of at least 1.5". -/
theorem c7_counterexample :
    reconcileTitle [("A", 3 / 10), ("B", 1 / 5)] "B" = "B" ∧
      (3 / 10 : ℚ) = (1 / 5) * (3 / 2) ∧ ("B" : String) ≠ "A" := by
  refine ⟨by with_unfolding_all rfl, by norm_num, by decide⟩

/-- C7 witness: the threshold rule applied to a concrete single-candidate
list. -/
theorem reconcileTitle_rules_witness :
    reconcileTitle [("T1", 6 / 10)] "F" = validateTitle "T1" := by
  apply (reconcileTitle_rules [("T1", 6 / 10)] "F").1 ("T1", 6 / 10) []
  · with_unfolding_all rfl
  · norm_num [titleConfidenceThreshold]
